import Mathlib

/-!
# SmaRTC Go clients: REST SDK (`smartc.go`) and hub chat client (`smartc_client.go`)

Shallow embedding of the two Go clients.

* Go `string` values are Lean `String`s; `[]byte` response bodies are carried as the
  string `string(respBody)` would produce.
* Everything outside the repository that a call consults (`json.Marshal`,
  `http.NewRequest`, `httpClient.Do` followed by `io.ReadAll`, `json.Unmarshal`) is an
  explicit parameter, the `Env`, quantified over in the theorems.
* Every operation returns its Go results together with the client state after the
  call and the list of effects (HTTP requests handed to the transport, log lines
  printed) in the order the code performs them.
-/

namespace SmaRTC

/-! ## Configuration -/

/-- Config of `smartc.go`; `Timeout` is a `time.Duration` (nanoseconds). -/
structure Config where
  APIBaseURL : String
  SignalServerURL : String
  Timeout : Int
  EnableLogs : Bool
  deriving DecidableEq, Repr

/-- DefaultConfig of `smartc.go`. -/
def DefaultConfig : Config :=
  { APIBaseURL := "http://localhost:8080"
    SignalServerURL := "http://localhost:5001"
    Timeout := 10 * 1000000000
    EnableLogs := false }

/-! ## Data types -/

structure User where
  ID : String
  Username : String
  deriving DecidableEq, Repr

structure Session where
  SessionID : String
  RoomName : String
  HostUserID : String
  Participants : List String
  CreatedAt : String
  IsActive : Bool
  deriving DecidableEq, Repr

/-- ICEServer: the two pointer fields are `none` when nil. -/
structure ICEServer where
  URLs : List String
  Username : Option String
  Credential : Option String
  deriving DecidableEq, Repr

structure LoginRequest where
  Username : String
  Password : String
  deriving DecidableEq, Repr

structure LoginResponse where
  Token : String
  User : User
  deriving DecidableEq, Repr

structure CreateSessionRequest where
  RoomName : String
  deriving DecidableEq, Repr

structure JoinSessionRequest where
  SessionID : String
  deriving DecidableEq, Repr

/-! ## Errors -/

/-- ErrorType is a Go `int`; the four constants are assigned by `iota`. -/
abbrev ErrorType := Int

def ErrorAuthentication : ErrorType := 0
def ErrorSessionNotFound : ErrorType := 1
def ErrorNetwork : ErrorType := 2
def ErrorGeneric : ErrorType := 3

/-- SmaRTCError; the Go field `Type` is spelled `Typ` (reserved word). -/
structure SmaRTCError where
  Typ : ErrorType
  Message : String
  deriving DecidableEq, Repr

/-- The method `(*SmaRTCError).Error`. -/
def SmaRTCError.Error (e : SmaRTCError) : String :=
  e.Message

def NewAuthError (message : String) : SmaRTCError :=
  let message := if message = "" then "Identifiants incorrects" else message
  { Typ := ErrorAuthentication, Message := message }

def NewSessionNotFoundError (message : String) : SmaRTCError :=
  let message := if message = "" then "Cet appel n'existe pas" else message
  { Typ := ErrorSessionNotFound, Message := message }

def NewNetworkError (message : String) : SmaRTCError :=
  let message := if message = "" then "Problème de connexion" else message
  { Typ := ErrorNetwork, Message := message }

def NewGenericError (message : String) : SmaRTCError :=
  { Typ := ErrorGeneric, Message := message }

/-! ## Client state -/

/-- Client of `smartc.go`. The `httpClient` field is the transport of the `Env`. -/
structure Client where
  config : Config
  token : String
  currentUsername : String
  currentSessionID : String
  deriving DecidableEq, Repr

/-- NewClient: `none` stands for a nil `*Config`. -/
def NewClient (config : Option Config) : Client :=
  let config := match config with
    | none => DefaultConfig
    | some cfg => cfg
  { config := config, token := "", currentUsername := "", currentSessionID := "" }

def Client.IsLoggedIn (c : Client) : Bool :=
  c.token != ""

def Client.CurrentUsername (c : Client) : String :=
  c.currentUsername

def Client.CurrentSessionID (c : Client) : String :=
  c.currentSessionID

/-! ## The outside world of one call -/

/-- The values passed as `body interface{}` to `request` (nil is `none`). -/
inductive Body where
  | login (r : LoginRequest)
  | createSession (r : CreateSessionRequest)
  | joinSession (r : JoinSessionRequest)
  deriving DecidableEq, Repr

/-- Header of a request: the pairs stored by `Header.Set`, oldest first. -/
abbrev Header := List (String × String)

/-- Header.Set replaces the values stored under the key. -/
def Header.Set (h : Header) (key value : String) : Header :=
  h.filter (fun kv => kv.1 != key) ++ [(key, value)]

/-- Header.Get: the value stored under the key, if any. -/
def Header.Get (h : Header) (key : String) : Option String :=
  (h.find? (fun kv => kv.1 == key)).map (fun kv => kv.2)

/-- The `*http.Request` handed to `httpClient.Do`. -/
structure Request where
  method : String
  url : String
  body : Option String
  header : Header
  deriving DecidableEq, Repr

/-- What `httpClient.Do(req)` followed by `io.ReadAll(resp.Body)` gives. -/
inductive RoundTrip where
  | doError (err : String)
  | readError (status : Int) (err : String)
  | response (status : Int) (body : String)
  deriving DecidableEq, Repr

/-- The library calls a client call depends on. Errors are carried as the text
`%v` prints for them. -/
structure Env where
  /-- The call `json.Marshal(body)`. -/
  marshal : Body → Except String String
  /-- The error of `http.NewRequest(method, url, reqBody)`, `none` when it is nil. -/
  newRequest : String → String → Option String → Option String
  /-- The calls `c.httpClient.Do(req)` and `io.ReadAll(resp.Body)`. -/
  roundTrip : Request → RoundTrip
  /-- The requests `c.httpClient.Do(req)` sends by itself after `req` when it is answered
  with redirects: `NewClient` builds the `http.Client` with a `Timeout` only, so the
  default redirect policy of the library applies. -/
  followed : Request → List Request
  /-- The call `json.Unmarshal(respData, &loginResp)`. -/
  unmarshalLoginResponse : String → Except String LoginResponse
  /-- The call `json.Unmarshal(respData, &user)`. -/
  unmarshalUser : String → Except String User
  /-- The call `json.Unmarshal(respData, &session)`. -/
  unmarshalSession : String → Except String Session
  /-- The call `json.Unmarshal(respData, &sessions)`. -/
  unmarshalSessions : String → Except String (List Session)
  /-- The call `json.Unmarshal(respData, &iceServers)`. -/
  unmarshalICEServers : String → Except String (List ICEServer)

/-- What a call does to the outside, in order. -/
inductive Effect where
  /-- A line written by `fmt.Printf` / `fmt.Println`. -/
  | log (line : String)
  /-- A request handed to `c.httpClient.Do`. -/
  | http (req : Request)
  deriving DecidableEq, Repr

/-- The requests among a list of effects, in order. -/
def httpRequests : List Effect → List Request
  | [] => []
  | Effect.http req :: rest => req :: httpRequests rest
  | Effect.log _ :: rest => httpRequests rest

/-- The requests sent for a list of requests handed to `httpClient.Do`: each one,
followed by those the `http.Client` sends by itself for it. -/
def withFollowed (w : Env) : List Request → List Request
  | [] => []
  | req :: rest => req :: (w.followed req ++ withFollowed w rest)

/-- The HTTP requests sent in the course of a list of effects, in order. -/
def wireRequests (w : Env) (fx : List Effect) : List Request :=
  withFollowed w (httpRequests fx)

/-- The verb `%d` of `fmt.Sprintf` on an `int`. -/
def fmtInt (n : Int) : String :=
  if n < 0 then "-" ++ Nat.repr n.natAbs else Nat.repr n.natAbs

/-! ## Private methods -/

/-- The method `(*Client).request`: the returned bytes or the error, and the effects. -/
def Client.request (w : Env) (c : Client) (method path : String) (body : Option Body)
    (requireAuth : Bool) : Except SmaRTCError String × List Effect :=
  let url := c.config.APIBaseURL ++ path
  let marshalled : Except String (Option String) :=
    match body with
    | none => Except.ok none
    | some b =>
      match w.marshal b with
      | Except.error err => Except.error err
      | Except.ok jsonData => Except.ok (some jsonData)
  match marshalled with
  | Except.error err =>
    (Except.error (NewGenericError ("Erreur de sérialisation : " ++ err)), [])
  | Except.ok reqBody =>
    match w.newRequest method url reqBody with
    | some err => (Except.error (NewNetworkError ("Erreur de requête : " ++ err)), [])
    | none =>
      let header := Header.Set [] "Content-Type" "application/json"
      let header :=
        if requireAuth = true ∧ c.token ≠ "" then
          Header.Set header "Authorization" ("Bearer " ++ c.token)
        else header
      let req : Request := { method := method, url := url, body := reqBody, header := header }
      let logs : List Effect :=
        if c.config.EnableLogs = true then
          [Effect.log ("[SmaRTC] " ++ method ++ " " ++ url ++ "\n")]
        else []
      let fx := logs ++ [Effect.http req]
      match w.roundTrip req with
      | RoundTrip.doError err =>
        (Except.error (NewNetworkError ("Erreur réseau : " ++ err)), fx)
      | RoundTrip.readError _ err =>
        (Except.error (NewNetworkError ("Erreur de lecture : " ++ err)), fx)
      | RoundTrip.response status respBody =>
        if status ≥ 400 then
          if status = 401 then
            (Except.error (NewAuthError "Identifiants incorrects"), fx)
          else if status = 404 then
            (Except.error (NewSessionNotFoundError "Ressource introuvable"), fx)
          else
            (Except.error (NewGenericError
              ("Erreur HTTP " ++ fmtInt status ++ " : " ++ respBody)), fx)
        else
          (Except.ok respBody, fx)

/-! ## Public methods -/

/-- A method call: the Go return value, the client afterwards, the effects in order. -/
structure Outcome (α : Type) where
  result : α
  client : Client
  effects : List Effect

/-- The method `(*Client).Login`; the result is the returned `error` (`none` is nil). -/
def Client.Login (w : Env) (c : Client) (username password : String) :
    Outcome (Option SmaRTCError) :=
  let reqBody : LoginRequest := { Username := username, Password := password }
  match c.request w "POST" "/api/auth/login" (some (Body.login reqBody)) false with
  | (Except.error err, fx) => { result := some err, client := c, effects := fx }
  | (Except.ok respData, fx) =>
    match w.unmarshalLoginResponse respData with
    | Except.error err =>
      { result := some (NewGenericError ("Erreur de parsing : " ++ err)), client := c,
        effects := fx }
    | Except.ok loginResp =>
      let c := { c with token := loginResp.Token }
      let c := { c with currentUsername := loginResp.User.Username }
      let logs : List Effect :=
        if c.config.EnableLogs = true then
          [Effect.log ("[SmaRTC] Connecté en tant que " ++ c.currentUsername ++ "\n")]
        else []
      { result := none, client := c, effects := fx ++ logs }

/-- The method `(*Client).Register`. -/
def Client.Register (w : Env) (c : Client) (username password : String) :
    Outcome (Except SmaRTCError User) :=
  let reqBody : LoginRequest := { Username := username, Password := password }
  match c.request w "POST" "/api/auth/register" (some (Body.login reqBody)) false with
  | (Except.error err, fx) => { result := Except.error err, client := c, effects := fx }
  | (Except.ok respData, fx) =>
    match w.unmarshalUser respData with
    | Except.error err =>
      { result := Except.error (NewGenericError ("Erreur de parsing : " ++ err)),
        client := c, effects := fx }
    | Except.ok user => { result := Except.ok user, client := c, effects := fx }

/-- The method `(*Client).StartCall`. -/
def Client.StartCall (w : Env) (c : Client) (roomName : String) :
    Outcome (Except SmaRTCError Session) :=
  let reqBody : CreateSessionRequest := { RoomName := roomName }
  match c.request w "POST" "/api/session" (some (Body.createSession reqBody)) true with
  | (Except.error err, fx) => { result := Except.error err, client := c, effects := fx }
  | (Except.ok respData, fx) =>
    match w.unmarshalSession respData with
    | Except.error err =>
      { result := Except.error (NewGenericError ("Erreur de parsing : " ++ err)),
        client := c, effects := fx }
    | Except.ok session =>
      let c := { c with currentSessionID := session.SessionID }
      let logs : List Effect :=
        if c.config.EnableLogs = true then
          [Effect.log ("[SmaRTC] Appel créé : " ++ session.SessionID ++ "\n")]
        else []
      { result := Except.ok session, client := c, effects := fx ++ logs }

/-- The method `(*Client).JoinCall`. -/
def Client.JoinCall (w : Env) (c : Client) (sessionID : String) :
    Outcome (Except SmaRTCError Session) :=
  let reqBody : JoinSessionRequest := { SessionID := sessionID }
  match c.request w "POST" "/api/session/join" (some (Body.joinSession reqBody)) true with
  | (Except.error err, fx) => { result := Except.error err, client := c, effects := fx }
  | (Except.ok respData, fx) =>
    match w.unmarshalSession respData with
    | Except.error err =>
      { result := Except.error (NewGenericError ("Erreur de parsing : " ++ err)),
        client := c, effects := fx }
    | Except.ok session =>
      let c := { c with currentSessionID := session.SessionID }
      let logs : List Effect :=
        if c.config.EnableLogs = true then
          [Effect.log ("[SmaRTC] Appel rejoint : " ++ session.SessionID ++ "\n")]
        else []
      { result := Except.ok session, client := c, effects := fx ++ logs }

/-- The method `(*Client).EndCall`; the result is the returned `error`. -/
def Client.EndCall (w : Env) (c : Client) : Outcome (Option SmaRTCError) :=
  if c.currentSessionID = "" then
    { result := some (NewGenericError "Aucun appel en cours"), client := c, effects := [] }
  else
    let path := "/api/session/" ++ c.currentSessionID
    match c.request w "DELETE" path none true with
    | (Except.error err, fx) => { result := some err, client := c, effects := fx }
    | (Except.ok _, fx) =>
      let logs : List Effect :=
        if c.config.EnableLogs = true then
          [Effect.log ("[SmaRTC] Appel terminé : " ++ c.currentSessionID ++ "\n")]
        else []
      let c := { c with currentSessionID := "" }
      { result := none, client := c, effects := fx ++ logs }

/-- The method `(*Client).GetAvailableCalls`. -/
def Client.GetAvailableCalls (w : Env) (c : Client) :
    Outcome (Except SmaRTCError (List Session)) :=
  match c.request w "GET" "/api/session" none true with
  | (Except.error err, fx) => { result := Except.error err, client := c, effects := fx }
  | (Except.ok respData, fx) =>
    match w.unmarshalSessions respData with
    | Except.error err =>
      { result := Except.error (NewGenericError ("Erreur de parsing : " ++ err)),
        client := c, effects := fx }
    | Except.ok sessions => { result := Except.ok sessions, client := c, effects := fx }

/-- The method `(*Client).GetICEServers`. -/
def Client.GetICEServers (w : Env) (c : Client) :
    Outcome (Except SmaRTCError (List ICEServer)) :=
  match c.request w "GET" "/api/webrtc/ice" none true with
  | (Except.error _, fx) =>
    { result := Except.ok
        [{ URLs := ["stun:stun.l.google.com:19302"], Username := none, Credential := none }],
      client := c, effects := fx }
  | (Except.ok respData, fx) =>
    match w.unmarshalICEServers respData with
    | Except.error err =>
      { result := Except.error (NewGenericError ("Erreur de parsing : " ++ err)),
        client := c, effects := fx }
    | Except.ok iceServers => { result := Except.ok iceServers, client := c, effects := fx }

/-- The method `(*Client).Logout`; the result is the returned `error`. -/
def Client.Logout (w : Env) (c : Client) : Outcome (Option SmaRTCError) :=
  let afterEnd : Client × List Effect :=
    if c.currentSessionID ≠ "" then
      let r := c.EndCall w
      match r.result with
      | some err =>
        let logs : List Effect :=
          if r.client.config.EnableLogs = true then
            [Effect.log ("[SmaRTC] Erreur lors de la fin d'appel : " ++ err.Error ++ "\n")]
          else []
        (r.client, r.effects ++ logs)
      | none => (r.client, r.effects)
    else (c, [])
  let c := afterEnd.1
  let c := { c with token := "" }
  let c := { c with currentUsername := "" }
  let c := { c with currentSessionID := "" }
  let logs : List Effect :=
    if c.config.EnableLogs = true then [Effect.log "[SmaRTC] Déconnecté\n"] else []
  { result := none, client := c, effects := afterEnd.2 ++ logs }


/-! ## Hub chat client (`smartc_client.go`)

The client state below is the `SmaRTCClient` struct. Its hub handle `client` is nil
(`none`) from `NewSmaRTCClient` until `Connect` stores one; a method call through a nil
handle panics, and the panic ends the running method and its callers (the code has no
`recover`), leaving the stores made before it. The context (`ctx`, `cancel`), which
`NewSmaRTCClient` always sets, is carried as the flag `cancelled`. Invocations, the
cancellation of the context and the stores made under the lock are recorded, in order,
as events. A handler field holds the identity of the installed function (`none` is nil);
calling it is an event. -/

/-- Identity of a function installed in a handler field. -/
abbrev HandlerId := Nat

/-- The value the hub would deliver on the channel `Invoke` returns. -/
structure InvokeResult where
  Value : String
  Error : Option String
  deriving DecidableEq, Repr

/-- What the hub answers to an invocation, by method name and arguments. -/
abbrev Hub := String → List String → InvokeResult

/-- The `signalr.Client` that `Connect` builds: its connector dials `hubURL`. -/
structure HubClient where
  hubURL : String
  deriving DecidableEq, Repr

/-- What a chat-client call does, in order. -/
inductive HubEvent where
  /-- The call `c.client.Invoke(method, args...)`. -/
  | invoke (method : String) (args : List String)
  /-- The call `c.cancel()`. -/
  | cancel
  /-- The stores `c.roomName = roomName; c.username = username` under the lock. -/
  | setRoom (roomName username : String)
  /-- The store `c.isConnected = v` under the lock. -/
  | setConnected (v : Bool)
  /-- A call of an installed handler with its arguments. -/
  | call (handler : HandlerId) (args : List String)
  /-- The call `c.client.Start()`. -/
  | start
  /-- The call `time.Sleep`, in milliseconds. -/
  | sleep (milliseconds : Nat)
  deriving DecidableEq, Repr

/-- How a Go call ends: it returns a value, or it panics. -/
inductive Completion (α : Type) where
  | returned (value : α)
  | panicked (reason : String)
  deriving DecidableEq, Repr

/-- The text of the run-time panic of a method call through a nil interface value. -/
def nilDereference : String :=
  "runtime error: invalid memory address or nil pointer dereference"

/-- SmaRTCClient of `smartc_client.go`; `client` is the hub handle (`none` is nil),
`cancelled` tells whether `ctx` is cancelled. -/
structure SmaRTCClient where
  hubURL : String
  username : String
  roomName : String
  client : Option HubClient
  cancelled : Bool
  isConnected : Bool
  OnSignalReceived : Option HandlerId
  OnUserJoined : Option HandlerId
  OnUserLeft : Option HandlerId
  OnConnected : Option HandlerId
  OnDisconnected : Option HandlerId
  OnError : Option HandlerId
  deriving DecidableEq, Repr

/-- A chat-client call: how it ends, the client afterwards, the events in order. -/
structure ChatOutcome (α : Type) where
  result : Completion α
  client : SmaRTCClient
  events : List HubEvent

/-- NewSmaRTCClient: a fresh context, no hub handle, no handler. -/
def NewSmaRTCClient (hubURL : String) : SmaRTCClient :=
  { hubURL := hubURL, username := "", roomName := "", client := none, cancelled := false,
    isConnected := false, OnSignalReceived := none, OnUserJoined := none,
    OnUserLeft := none, OnConnected := none, OnDisconnected := none, OnError := none }

/-- The call `c.client.Invoke(method, args...)`: `none` when the handle is nil (the call
panics), otherwise the result the returned channel would deliver and the event. -/
def SmaRTCClient.Invoke (hub : Hub) (c : SmaRTCClient) (method : String)
    (args : List String) : Option (InvokeResult × List HubEvent) :=
  match c.client with
  | none => none
  | some _ => some (hub method args, [HubEvent.invoke method args])

/-- Receiver.SendSignal: an inbound signal from the hub. -/
def Receiver.SendSignal (c : SmaRTCClient) (user message : String) : List HubEvent :=
  match c.OnSignalReceived with
  | some h => [HubEvent.call h [user, message]]
  | none => []

/-- Receiver.NewUserArrived: an inbound event from the hub. -/
def Receiver.NewUserArrived (c : SmaRTCClient) (username : String) : List HubEvent :=
  match c.OnUserJoined with
  | some h => [HubEvent.call h [username]]
  | none => []

/-- Receiver.UserLeft: an inbound event from the hub. -/
def Receiver.UserLeft (c : SmaRTCClient) (username : String) : List HubEvent :=
  match c.OnUserLeft with
  | some h => [HubEvent.call h [username]]
  | none => []

/-- The method `(*SmaRTCClient).Connect`; `newClientError` is the error of
`signalr.NewClient` (`none` is nil), the result is the returned `error`. -/
def SmaRTCClient.Connect (newClientError : Option String) (c : SmaRTCClient) :
    ChatOutcome (Option String) :=
  match newClientError with
  | some err =>
    let called : List HubEvent :=
      match c.OnError with
      | some h => [HubEvent.call h ["failed to create client: " ++ err]]
      | none => []
    { result := Completion.returned (some err), client := c, events := called }
  | none =>
    let c := { c with client := some { hubURL := c.hubURL } }
    let c := { c with isConnected := true }
    let called : List HubEvent :=
      match c.OnConnected with
      | some h => [HubEvent.call h []]
      | none => []
    { result := Completion.returned none, client := c,
      events := [HubEvent.start, HubEvent.sleep 500, HubEvent.setConnected true] ++ called }

/-- The method `(*SmaRTCClient).JoinRoom`; the result is the returned `error`. -/
def SmaRTCClient.JoinRoom (hub : Hub) (c : SmaRTCClient) (roomName username : String) :
    ChatOutcome (Option String) :=
  let c := { c with roomName := roomName }
  let c := { c with username := username }
  match c.Invoke hub "JoinSession" [roomName, username] with
  | none =>
    { result := Completion.panicked nilDereference, client := c,
      events := [HubEvent.setRoom roomName username] }
  | some inv =>
    { result := Completion.returned none, client := c,
      events := HubEvent.setRoom roomName username :: inv.2 }

/-- The method `(*SmaRTCClient).LeaveRoom`. -/
def SmaRTCClient.LeaveRoom (hub : Hub) (c : SmaRTCClient) : ChatOutcome (Option String) :=
  let roomName := c.roomName
  let username := c.username
  if roomName ≠ "" ∧ username ≠ "" then
    match c.Invoke hub "LeaveSession" [roomName, username] with
    | none => { result := Completion.panicked nilDereference, client := c, events := [] }
    | some inv => { result := Completion.returned none, client := c, events := inv.2 }
  else
    { result := Completion.returned none, client := c, events := [] }

/-- The method `(*SmaRTCClient).SendMessage`. -/
def SmaRTCClient.SendMessage (hub : Hub) (c : SmaRTCClient) (message : String) :
    ChatOutcome (Option String) :=
  let roomName := c.roomName
  let username := c.username
  if roomName = "" then
    { result := Completion.returned (some "not in a room"), client := c, events := [] }
  else
    match c.Invoke hub "SendSignalToSession" [roomName, message, username] with
    | none => { result := Completion.panicked nilDereference, client := c, events := [] }
    | some inv => { result := Completion.returned none, client := c, events := inv.2 }

/-- The method `(*SmaRTCClient).Disconnect`. -/
def SmaRTCClient.Disconnect (hub : Hub) (c : SmaRTCClient) : ChatOutcome Unit :=
  let left := c.LeaveRoom hub
  match left.result with
  | Completion.panicked reason =>
    { result := Completion.panicked reason, client := left.client, events := left.events }
  | Completion.returned _ =>
    let c := left.client
    let c := { c with cancelled := true }
    let c := { c with isConnected := false }
    let called : List HubEvent :=
      match c.OnDisconnected with
      | some h => [HubEvent.call h []]
      | none => []
    { result := Completion.returned (), client := c,
      events := left.events ++ [HubEvent.cancel] ++ [HubEvent.setConnected false] ++ called }

def SmaRTCClient.IsConnected (c : SmaRTCClient) : Bool :=
  c.isConnected

def SmaRTCClient.GetUsername (c : SmaRTCClient) : String :=
  c.username

def SmaRTCClient.GetRoomName (c : SmaRTCClient) : String :=
  c.roomName

/-- The hub invocations among a list of events, in order: method name and arguments. -/
def invocations : List HubEvent → List (String × List String)
  | [] => []
  | HubEvent.invoke method args :: rest => (method, args) :: invocations rest
  | _ :: rest => invocations rest

/-- A connected chat client in room "go-chat-room" with a disconnect handler. -/
def sampleChatClient : SmaRTCClient :=
  { hubURL := "http://localhost:5001/signalhub", username := "alice",
    roomName := "go-chat-room",
    client := some { hubURL := "http://localhost:5001/signalhub" },
    cancelled := false, isConnected := true,
    OnSignalReceived := none, OnUserJoined := none, OnUserLeft := none,
    OnConnected := none, OnDisconnected := some 7, OnError := none }

/-- A client that never connected: as `NewSmaRTCClient` makes it. -/
def freshChatClient : SmaRTCClient :=
  NewSmaRTCClient "http://localhost:5001/signalhub"

/-- A hub that acknowledges every invocation. -/
def sampleHub : Hub :=
  fun _ _ => { Value := "", Error := none }

/-- A hub that rejects every invocation. -/
def failingHub : Hub :=
  fun _ _ => { Value := "", Error := some "hub error" }

/-! ## Sample surroundings used to instantiate the theorems -/

/-- A server that answers every request with status 200 and an empty JSON object; the
decoders accept every body and yield zero values. -/
def sampleEnv : Env :=
  { marshal := fun _ => Except.ok "{}"
    newRequest := fun _ _ _ => none
    roundTrip := fun _ => RoundTrip.response 200 "{}"
    followed := fun _ => []
    unmarshalLoginResponse := fun _ => Except.ok { Token := "", User := { ID := "", Username := "" } }
    unmarshalUser := fun _ => Except.ok { ID := "", Username := "" }
    unmarshalSession := fun _ =>
      Except.ok { SessionID := "", RoomName := "", HostUserID := "", Participants := [],
                  CreatedAt := "", IsActive := false }
    unmarshalSessions := fun _ => Except.ok []
    unmarshalICEServers := fun _ => Except.ok [] }

/-- The sample server answering every request with the given round trip. -/
def sampleEnvWith (rt : RoundTrip) : Env :=
  { sampleEnv with roundTrip := fun _ => rt }

/-- A logged-in client with a call in progress. -/
def sampleClient : Client :=
  { config := DefaultConfig, token := "tok", currentUsername := "alice",
    currentSessionID := "s1" }

/-- The first check `http.NewRequest` makes on its URL (in `url.Parse`): a URL holding an
ASCII control character (below 0x20, or 0x7f) is rejected. The error text is the
library's without its `parse "<url>": ` prefix. -/
def rejectControlCharacters (url : String) : Option String :=
  if url.data.any (fun ch => decide (ch.toNat < 32) || decide (ch.toNat = 127)) then
    some "net/url: invalid control character in URL"
  else none

/-- The sample server behind an `http.NewRequest` that rejects control characters. -/
def strictEnv : Env :=
  { sampleEnv with newRequest := fun _ url _ => rejectControlCharacters url }

/-- A logged-in client whose session id, as returned by the server, holds a line feed. -/
def lineFeedClient : Client :=
  { config := DefaultConfig, token := "tok", currentUsername := "alice",
    currentSessionID := "s\n1" }


/-- A server whose login answer names the user "Alice.Server" with token "jwt-1". -/
def loginEnv : Env :=
  { sampleEnv with
    unmarshalLoginResponse := fun _ =>
      Except.ok { Token := "jwt-1", User := { ID := "42", Username := "Alice.Server" } } }

/-- A server answering 200 with a body that no decoder accepts. -/
def parseFailEnv : Env :=
  { sampleEnv with
    roundTrip := fun _ => RoundTrip.response 200 "<html>"
    unmarshalLoginResponse := fun _ => Except.error "unexpected end of JSON input"
    unmarshalUser := fun _ => Except.error "unexpected end of JSON input"
    unmarshalSession := fun _ => Except.error "unexpected end of JSON input"
    unmarshalSessions := fun _ => Except.error "unexpected end of JSON input"
    unmarshalICEServers := fun _ => Except.error "unexpected end of JSON input" }

/-- A server whose ICE answer decodes to one TURN server with credentials. -/
def turnEnv : Env :=
  { sampleEnv with
    unmarshalICEServers := fun _ =>
      Except.ok [{ URLs := ["turn:turn.example.org:3478"], Username := some "u",
                   Credential := some "p" }] }

/-- A server that answers the first request with a redirect to another host: the
`http.Client` sends the request again there, without the Authorization header, and
gets status 200 and an empty JSON object. -/
def redirectEnv : Env :=
  { sampleEnv with
    followed := fun req =>
      [{ req with
          url := "http://mirror.example.org/api/session"
          header := req.header.filter (fun kv => kv.1 != "Authorization") }] }

/-- The sample client with an empty token and a call in progress. -/
def tokenlessClient : Client :=
  { sampleClient with token := "" }

/-- At most one request, and if there is one it has this method and this URL. -/
def AtMostOne (reqs : List Request) (method url : String) : Prop :=
  match reqs with
  | [] => True
  | [req] => req.method = method ∧ req.url = url
  | _ :: _ :: _ => False

instance (reqs : List Request) (method url : String) :
    Decidable (AtMostOne reqs method url) := by
  unfold AtMostOne
  split <;> infer_instance

/-- At most one call of `httpClient.Do`, with a request of this method and this URL; the
requests sent are that request and those the `http.Client` sends by itself after it. -/
def CallsDoAtMostOnce (w : Env) (fx : List Effect) (method url : String) : Prop :=
  match httpRequests fx with
  | [] => wireRequests w fx = []
  | [req] => req.method = method ∧ req.url = url ∧ wireRequests w fx = req :: w.followed req
  | _ :: _ :: _ => False

/-- Exactly one call of `httpClient.Do`, with a request of this method, URL and body
whose Authorization header is `auth` (`none` when the header is absent). -/
def CallsDoWith (fx : List Effect) (method url : String) (body auth : Option String) :
    Prop :=
  ∃ req, httpRequests fx = [req] ∧ req.method = method ∧ req.url = url ∧
    req.body = body ∧ req.header.Get "Authorization" = auth

/-! ### The request layer in pieces

The three definitions below name the pieces of `Client.request` so that lemmas can
speak about them; `request_eq` shows that `Client.request` is their composition. -/

/-- The body reader `request` builds from `body`, or the error text of `json.Marshal`. -/
def marshalBody (w : Env) (body : Option Body) : Except String (Option String) :=
  match body with
  | none => Except.ok none
  | some b =>
    match w.marshal b with
    | Except.error err => Except.error err
    | Except.ok jsonData => Except.ok (some jsonData)

/-- The request `request` hands to the transport once `http.NewRequest` has succeeded. -/
def builtRequest (c : Client) (method path : String) (reqBody : Option String)
    (requireAuth : Bool) : Request :=
  { method := method
    url := c.config.APIBaseURL ++ path
    body := reqBody
    header :=
      if requireAuth = true ∧ c.token ≠ "" then
        Header.Set (Header.Set [] "Content-Type" "application/json") "Authorization"
          ("Bearer " ++ c.token)
      else Header.Set [] "Content-Type" "application/json" }

/-- The effects of a `request` call that reaches the transport. -/
def sendEffects (c : Client) (method path : String) (reqBody : Option String)
    (requireAuth : Bool) : List Effect :=
  (if c.config.EnableLogs = true then
    [Effect.log ("[SmaRTC] " ++ method ++ " " ++ (c.config.APIBaseURL ++ path) ++ "\n")]
  else []) ++ [Effect.http (builtRequest c method path reqBody requireAuth)]

/-- The value `request` returns for each outcome of the round trip. -/
def mapRoundTrip : RoundTrip → Except SmaRTCError String
  | RoundTrip.doError err => Except.error (NewNetworkError ("Erreur réseau : " ++ err))
  | RoundTrip.readError _ err => Except.error (NewNetworkError ("Erreur de lecture : " ++ err))
  | RoundTrip.response status respBody =>
    if status ≥ 400 then
      if status = 401 then Except.error (NewAuthError "Identifiants incorrects")
      else if status = 404 then Except.error (NewSessionNotFoundError "Ressource introuvable")
      else Except.error (NewGenericError ("Erreur HTTP " ++ fmtInt status ++ " : " ++ respBody))
    else Except.ok respBody

/-! ## Auxiliary lemmas -/

theorem fmtInt_of_nonneg (n : Int) (h : 0 ≤ n) : fmtInt n = Nat.repr n.toNat := by
  unfold fmtInt
  have h1 : ¬ n < 0 := not_lt.mpr h
  have h2 : n.natAbs = n.toNat := by omega
  simp [h1, h2]

theorem request_eq (w : Env) (c : Client) (method path : String) (body : Option Body)
    (requireAuth : Bool) :
    c.request w method path body requireAuth =
      match marshalBody w body with
      | Except.error err =>
        (Except.error (NewGenericError ("Erreur de sérialisation : " ++ err)), [])
      | Except.ok reqBody =>
        match w.newRequest method (c.config.APIBaseURL ++ path) reqBody with
        | some err => (Except.error (NewNetworkError ("Erreur de requête : " ++ err)), [])
        | none =>
          (mapRoundTrip (w.roundTrip (builtRequest c method path reqBody requireAuth)),
            sendEffects c method path reqBody requireAuth) := by
  unfold Client.request
  cases hm : marshalBody w body with
  | error err =>
    cases body with
    | none => simp [marshalBody] at hm
    | some b =>
      cases hb : w.marshal b with
      | error e => simp [marshalBody, hb] at hm; simp [hb, hm]
      | ok j => simp [marshalBody, hb] at hm
  | ok reqBody =>
    have key : (match body with
        | none => (Except.ok none : Except String (Option String))
        | some b =>
          match w.marshal b with
          | Except.error err => Except.error err
          | Except.ok jsonData => Except.ok (some jsonData)) = Except.ok reqBody := hm
    simp only [key]
    cases hn : w.newRequest method (c.config.APIBaseURL ++ path) reqBody with
    | some err => rfl
    | none =>
      simp only [builtRequest, sendEffects]
      cases hr : w.roundTrip (builtRequest c method path reqBody requireAuth) with
      | doError err => simp only [builtRequest] at hr; simp only [hr, mapRoundTrip]
      | readError st err => simp only [builtRequest] at hr; simp only [hr, mapRoundTrip]
      | response st b =>
        simp only [builtRequest] at hr
        simp only [hr, mapRoundTrip]
        split_ifs <;> rfl

theorem mem_sendEffects (c : Client) (method path : String) (reqBody : Option String)
    (requireAuth : Bool) (req : Request) :
    Effect.http req ∈ sendEffects c method path reqBody requireAuth ↔
      req = builtRequest c method path reqBody requireAuth := by
  unfold sendEffects
  split_ifs <;> simp

theorem httpRequests_sendEffects (c : Client) (method path : String)
    (reqBody : Option String) (requireAuth : Bool) :
    httpRequests (sendEffects c method path reqBody requireAuth) =
      [builtRequest c method path reqBody requireAuth] := by
  unfold sendEffects
  split_ifs <;> simp [httpRequests]

/-- A request found among the effects of `request` is the one built from the arguments,
and the call returns what `mapRoundTrip` makes of its round trip. -/
theorem request_of_sent (w : Env) (c : Client) (method path : String) (body : Option Body)
    (requireAuth : Bool) (req : Request)
    (hsent : Effect.http req ∈ (c.request w method path body requireAuth).2) :
    (∃ reqBody, req = builtRequest c method path reqBody requireAuth) ∧
    (c.request w method path body requireAuth).1 = mapRoundTrip (w.roundTrip req) ∧
    httpRequests (c.request w method path body requireAuth).2 = [req] := by
  rw [request_eq] at hsent ⊢
  cases hm : marshalBody w body with
  | error err => simp [hm] at hsent
  | ok reqBody =>
    simp only [hm] at hsent ⊢
    cases hn : w.newRequest method (c.config.APIBaseURL ++ path) reqBody with
    | some err => simp [hn] at hsent
    | none =>
      simp only [hn] at hsent ⊢
      rw [mem_sendEffects] at hsent
      subst hsent
      exact ⟨⟨reqBody, rfl⟩, rfl, httpRequests_sendEffects _ _ _ _ _⟩

theorem mem_httpRequests (req : Request) (fx : List Effect) :
    req ∈ httpRequests fx ↔ Effect.http req ∈ fx := by
  induction fx with
  | nil => simp [httpRequests]
  | cons x xs ih =>
    cases x with
    | log l => simp [httpRequests, ih]
    | http r => simp [httpRequests, ih, eq_comm]

/-- The result of `request` once one of its requests is known. -/
theorem request_result_of_sent (w : Env) (c : Client) (method path : String)
    (body : Option Body) (requireAuth : Bool) (req : Request)
    (hsent : req ∈ httpRequests (c.request w method path body requireAuth).2) :
    (c.request w method path body requireAuth).1 = mapRoundTrip (w.roundTrip req) :=
  (request_of_sent w c method path body requireAuth req
    ((mem_httpRequests _ _).mp hsent)).2.1

/-- The fallback of `GetICEServers`, as the code writes it. -/
theorem GetICEServers_of_request_error (w : Env) (c : Client) (e : SmaRTCError)
    (h : (c.request w "GET" "/api/webrtc/ice" none true).1 = Except.error e) :
    (c.GetICEServers w).result = Except.ok
      [{ URLs := ["stun:stun.l.google.com:19302"], Username := none, Credential := none }] ∧
    (c.GetICEServers w).client = c := by
  unfold Client.GetICEServers
  rcases hr : c.request w "GET" "/api/webrtc/ice" none true with ⟨res, fx⟩
  rw [hr] at h
  simp only at h
  subst h
  exact ⟨rfl, rfl⟩

theorem marshalBody_none (w : Env) : marshalBody w none = Except.ok none := rfl

/-- The ways a body-less `request` fails, read off `request_eq`. -/
theorem request_none_error (w : Env) (c : Client) (method path : String) (requireAuth : Bool)
    (hfail : (∃ err, w.newRequest method (c.config.APIBaseURL ++ path) none = some err) ∨
      (∃ err, w.roundTrip (builtRequest c method path none requireAuth) =
        RoundTrip.doError err) ∨
      (∃ status err, w.roundTrip (builtRequest c method path none requireAuth) =
        RoundTrip.readError status err) ∨
      (∃ status respBody, w.roundTrip (builtRequest c method path none requireAuth) =
        RoundTrip.response status respBody ∧ 400 ≤ status)) :
    ∃ e, (c.request w method path none requireAuth).1 = Except.error e := by
  rw [request_eq, marshalBody_none]
  simp only
  cases hn : w.newRequest method (c.config.APIBaseURL ++ path) none with
  | some err => exact ⟨_, rfl⟩
  | none =>
    simp only
    rcases hfail with ⟨err, h⟩ | ⟨err, h⟩ | ⟨st, err, h⟩ | ⟨st, b, h, h4⟩
    · rw [hn] at h; exact absurd h (by simp)
    · rw [h]; exact ⟨_, rfl⟩
    · rw [h]; exact ⟨_, rfl⟩
    · rw [h]
      simp only [mapRoundTrip, ge_iff_le, h4, if_true]
      split_ifs <;> exact ⟨_, rfl⟩

/-! ### Requests among the effects -/

theorem httpRequests_append (xs ys : List Effect) :
    httpRequests (xs ++ ys) = httpRequests xs ++ httpRequests ys := by
  induction xs with
  | nil => rfl
  | cons x xs ih =>
    cases x with
    | log l => simpa [httpRequests] using ih
    | http r => simpa [httpRequests] using ih

theorem httpRequests_log_if (b : Prop) [Decidable b] (l : String) :
    httpRequests (if b then [Effect.log l] else []) = [] := by
  split_ifs <;> rfl

/-- The requests `request` hands to the transport: none when marshalling or
`http.NewRequest` fails, otherwise the one built from the arguments. -/
theorem request_http (w : Env) (c : Client) (method path : String) (body : Option Body)
    (requireAuth : Bool) :
    httpRequests (c.request w method path body requireAuth).2 =
      match marshalBody w body with
      | Except.error _ => []
      | Except.ok reqBody =>
        match w.newRequest method (c.config.APIBaseURL ++ path) reqBody with
        | some _ => []
        | none => [builtRequest c method path reqBody requireAuth] := by
  rw [request_eq]
  cases marshalBody w body with
  | error err => rfl
  | ok reqBody =>
    simp only
    cases w.newRequest method (c.config.APIBaseURL ++ path) reqBody with
    | some err => rfl
    | none => exact httpRequests_sendEffects _ _ _ _ _

theorem builtRequest_authorization (c : Client) (method path : String)
    (reqBody : Option String) (requireAuth : Bool) :
    (builtRequest c method path reqBody requireAuth).header.Get "Authorization" =
      (if requireAuth = true ∧ c.token ≠ "" then some ("Bearer " ++ c.token) else none) := by
  unfold builtRequest
  split_ifs <;> simp [Header.Set, Header.Get, List.find?]

theorem EndCall_http (w : Env) (c : Client) (h : c.currentSessionID ≠ "") :
    httpRequests (c.EndCall w).effects =
      httpRequests (c.request w "DELETE" ("/api/session/" ++ c.currentSessionID) none true).2 := by
  simp only [Client.EndCall, if_neg h]
  generalize c.request w "DELETE" ("/api/session/" ++ c.currentSessionID) none true = r
  rcases r with ⟨res, fx⟩
  cases res with
  | error e => rfl
  | ok b => simp [httpRequests_append, httpRequests_log_if]

theorem Logout_effects (w : Env) (c : Client) (h : c.currentSessionID ≠ "") :
    ∃ logs, (c.Logout w).effects = (c.EndCall w).effects ++ logs ∧ httpRequests logs = [] := by
  unfold Client.Logout
  simp only [h, ne_eq, not_false_eq_true, if_true]
  cases (c.EndCall w).result with
  | none =>
    exact ⟨_, rfl, httpRequests_log_if _ _⟩
  | some err =>
    refine ⟨_, List.append_assoc _ _ _, ?_⟩
    simp [httpRequests_append, httpRequests_log_if]

theorem Logout_result_and_state (w : Env) (c : Client) :
    (c.Logout w).result = none ∧
    (c.Logout w).client =
      { config := (c.Logout w).client.config, token := "", currentUsername := "",
        currentSessionID := "" } := by
  unfold Client.Logout
  exact ⟨rfl, rfl⟩

theorem Logout_http_of_empty (w : Env) (c : Client) (h : c.currentSessionID = "") :
    httpRequests (c.Logout w).effects = [] := by
  unfold Client.Logout
  simp [h, httpRequests_append, httpRequests_log_if, httpRequests]

/-- A request of `request` answered with a status below 400 makes it return the body. -/
theorem request_ok_of_sent (w : Env) (c : Client) (method path : String) (body : Option Body)
    (requireAuth : Bool) (req : Request) (status : Int) (respBody : String)
    (hsent : req ∈ httpRequests (c.request w method path body requireAuth).2)
    (hresp : w.roundTrip req = RoundTrip.response status respBody) (hstatus : status < 400) :
    (c.request w method path body requireAuth).1 = Except.ok respBody := by
  obtain ⟨-, hres, -⟩ :=
    request_of_sent w c method path body requireAuth req ((mem_httpRequests _ _).mp hsent)
  rw [hres, hresp]
  have h : ¬ status ≥ 400 := by omega
  simp [mapRoundTrip, h]

theorem Login_http (w : Env) (c : Client) (username password : String) :
    httpRequests (c.Login w username password).effects =
      httpRequests (c.request w "POST" "/api/auth/login"
        (some (Body.login { Username := username, Password := password })) false).2 := by
  simp only [Client.Login]
  generalize c.request w "POST" "/api/auth/login"
    (some (Body.login { Username := username, Password := password })) false = r
  rcases r with ⟨res, fx⟩
  cases res with
  | error e => rfl
  | ok b =>
    simp only
    cases w.unmarshalLoginResponse b with
    | error err => rfl
    | ok lr => simp [httpRequests_append, httpRequests_log_if]

/-! ### Each public method in terms of its `request` call -/

theorem Login_of_request_error (w : Env) (c : Client) (username password : String)
    (e : SmaRTCError)
    (h : (c.request w "POST" "/api/auth/login"
      (some (Body.login { Username := username, Password := password })) false).1 =
        Except.error e) :
    (c.Login w username password).result = some e ∧
    (c.Login w username password).client = c := by
  simp only [Client.Login]
  generalize c.request w "POST" "/api/auth/login"
    (some (Body.login { Username := username, Password := password })) false = r at h
  rcases r with ⟨res, fx⟩
  simp only at h
  subst h
  exact ⟨rfl, rfl⟩

theorem Register_http (w : Env) (c : Client) (username password : String) :
    httpRequests (c.Register w username password).effects =
      httpRequests (c.request w "POST" "/api/auth/register"
        (some (Body.login { Username := username, Password := password })) false).2 := by
  simp only [Client.Register]
  generalize c.request w "POST" "/api/auth/register"
    (some (Body.login { Username := username, Password := password })) false = r
  rcases r with ⟨res, fx⟩
  cases res with
  | error e => rfl
  | ok b =>
    simp only
    cases w.unmarshalUser b with
    | error err => rfl
    | ok u => rfl

theorem Register_of_request_error (w : Env) (c : Client) (username password : String)
    (e : SmaRTCError)
    (h : (c.request w "POST" "/api/auth/register"
      (some (Body.login { Username := username, Password := password })) false).1 =
        Except.error e) :
    (c.Register w username password).result = Except.error e ∧
    (c.Register w username password).client = c := by
  simp only [Client.Register]
  generalize c.request w "POST" "/api/auth/register"
    (some (Body.login { Username := username, Password := password })) false = r at h
  rcases r with ⟨res, fx⟩
  simp only at h
  subst h
  exact ⟨rfl, rfl⟩

theorem StartCall_http (w : Env) (c : Client) (roomName : String) :
    httpRequests (c.StartCall w roomName).effects =
      httpRequests (c.request w "POST" "/api/session"
        (some (Body.createSession { RoomName := roomName })) true).2 := by
  simp only [Client.StartCall]
  generalize c.request w "POST" "/api/session"
    (some (Body.createSession { RoomName := roomName })) true = r
  rcases r with ⟨res, fx⟩
  cases res with
  | error e => rfl
  | ok b =>
    simp only
    cases w.unmarshalSession b with
    | error err => rfl
    | ok u => simp [httpRequests_append, httpRequests_log_if]

theorem StartCall_of_request_error (w : Env) (c : Client) (roomName : String)
    (e : SmaRTCError)
    (h : (c.request w "POST" "/api/session"
      (some (Body.createSession { RoomName := roomName })) true).1 = Except.error e) :
    (c.StartCall w roomName).result = Except.error e ∧
    (c.StartCall w roomName).client = c := by
  simp only [Client.StartCall]
  generalize c.request w "POST" "/api/session"
    (some (Body.createSession { RoomName := roomName })) true = r at h
  rcases r with ⟨res, fx⟩
  simp only at h
  subst h
  exact ⟨rfl, rfl⟩

theorem JoinCall_http (w : Env) (c : Client) (sessionID : String) :
    httpRequests (c.JoinCall w sessionID).effects =
      httpRequests (c.request w "POST" "/api/session/join"
        (some (Body.joinSession { SessionID := sessionID })) true).2 := by
  simp only [Client.JoinCall]
  generalize c.request w "POST" "/api/session/join"
    (some (Body.joinSession { SessionID := sessionID })) true = r
  rcases r with ⟨res, fx⟩
  cases res with
  | error e => rfl
  | ok b =>
    simp only
    cases w.unmarshalSession b with
    | error err => rfl
    | ok u => simp [httpRequests_append, httpRequests_log_if]

theorem JoinCall_of_request_error (w : Env) (c : Client) (sessionID : String)
    (e : SmaRTCError)
    (h : (c.request w "POST" "/api/session/join"
      (some (Body.joinSession { SessionID := sessionID })) true).1 = Except.error e) :
    (c.JoinCall w sessionID).result = Except.error e ∧
    (c.JoinCall w sessionID).client = c := by
  simp only [Client.JoinCall]
  generalize c.request w "POST" "/api/session/join"
    (some (Body.joinSession { SessionID := sessionID })) true = r at h
  rcases r with ⟨res, fx⟩
  simp only at h
  subst h
  exact ⟨rfl, rfl⟩

theorem EndCall_of_request_error (w : Env) (c : Client) (e : SmaRTCError)
    (hsid : c.currentSessionID ≠ "")
    (h : (c.request w "DELETE" ("/api/session/" ++ c.currentSessionID) none true).1 =
      Except.error e) :
    (c.EndCall w).result = some e ∧ (c.EndCall w).client = c := by
  simp only [Client.EndCall, if_neg hsid]
  generalize c.request w "DELETE" ("/api/session/" ++ c.currentSessionID) none true = r at h
  rcases r with ⟨res, fx⟩
  simp only at h
  subst h
  exact ⟨rfl, rfl⟩

theorem EndCall_http_of_empty (w : Env) (c : Client) (hsid : c.currentSessionID = "") :
    httpRequests (c.EndCall w).effects = [] := by
  simp [Client.EndCall, hsid, httpRequests]

theorem GetAvailableCalls_http (w : Env) (c : Client) :
    httpRequests (c.GetAvailableCalls w).effects =
      httpRequests (c.request w "GET" "/api/session" none true).2 := by
  simp only [Client.GetAvailableCalls]
  generalize c.request w "GET" "/api/session" none true = r
  rcases r with ⟨res, fx⟩
  cases res with
  | error e => rfl
  | ok b =>
    simp only
    cases w.unmarshalSessions b with
    | error err => rfl
    | ok u => rfl

theorem GetAvailableCalls_of_request_error (w : Env) (c : Client) (e : SmaRTCError)
    (h : (c.request w "GET" "/api/session" none true).1 = Except.error e) :
    (c.GetAvailableCalls w).result = Except.error e ∧ (c.GetAvailableCalls w).client = c := by
  simp only [Client.GetAvailableCalls]
  generalize c.request w "GET" "/api/session" none true = r at h
  rcases r with ⟨res, fx⟩
  simp only at h
  subst h
  exact ⟨rfl, rfl⟩

theorem GetICEServers_http (w : Env) (c : Client) :
    httpRequests (c.GetICEServers w).effects =
      httpRequests (c.request w "GET" "/api/webrtc/ice" none true).2 := by
  simp only [Client.GetICEServers]
  generalize c.request w "GET" "/api/webrtc/ice" none true = r
  rcases r with ⟨res, fx⟩
  cases res with
  | error e => rfl
  | ok b =>
    simp only
    cases w.unmarshalICEServers b with
    | error err => rfl
    | ok u => rfl

theorem request_atMostOne (w : Env) (c : Client) (method path : String) (body : Option Body)
    (requireAuth : Bool) :
    AtMostOne (httpRequests (c.request w method path body requireAuth).2) method
      (c.config.APIBaseURL ++ path) := by
  rw [request_http]
  cases marshalBody w body with
  | error err => exact True.intro
  | ok reqBody =>
    simp only
    cases w.newRequest method (c.config.APIBaseURL ++ path) reqBody with
    | some err => exact True.intro
    | none => exact ⟨rfl, rfl⟩

theorem Logout_http (w : Env) (c : Client) :
    httpRequests (c.Logout w).effects = httpRequests (c.EndCall w).effects := by
  by_cases hsid : c.currentSessionID = ""
  · rw [Logout_http_of_empty w c hsid, EndCall_http_of_empty w c hsid]
  · obtain ⟨logs, hfx, hlogs⟩ := Logout_effects w c hsid
    rw [hfx, httpRequests_append, hlogs, List.append_nil]

/-- The Authorization header of every request of a `request` call. -/
theorem request_authorization (w : Env) (c : Client) (method path : String)
    (body : Option Body) (requireAuth : Bool) (req : Request)
    (hsent : req ∈ httpRequests (c.request w method path body requireAuth).2) :
    req.header.Get "Authorization" =
      (if requireAuth = true ∧ c.token ≠ "" then some ("Bearer " ++ c.token) else none) := by
  obtain ⟨⟨reqBody, hreq⟩, -, -⟩ :=
    request_of_sent w c method path body requireAuth req ((mem_httpRequests _ _).mp hsent)
  rw [hreq, builtRequest_authorization]

/-- Whether `request` reaches the transport does not depend on the stored token. -/
theorem request_http_length_token (w : Env) (c : Client) (t : String) (method path : String)
    (body : Option Body) (requireAuth : Bool) :
    (httpRequests (({ c with token := t } : Client).request w method path body
      requireAuth).2).length =
    (httpRequests (c.request w method path body requireAuth).2).length := by
  rw [request_http, request_http]
  cases marshalBody w body with
  | error err => rfl
  | ok reqBody =>
    simp only
    cases w.newRequest method (c.config.APIBaseURL ++ path) reqBody with
    | some err => rfl
    | none => rfl

theorem EndCall_http_length_token (w : Env) (c : Client) (t : String) :
    (httpRequests (({ c with token := t } : Client).EndCall w).effects).length =
    (httpRequests (c.EndCall w).effects).length := by
  by_cases hsid : c.currentSessionID = ""
  · rw [EndCall_http_of_empty w c hsid, EndCall_http_of_empty w { c with token := t } hsid]
  · rw [EndCall_http w c hsid, EndCall_http w { c with token := t } hsid]
    exact request_http_length_token w c t _ _ _ _

/-! ### Requests that `http.NewRequest` rejects -/

theorem append_ne_empty (p s : String) (hp : p ≠ "") : p ++ s ≠ "" := by
  intro h
  apply hp
  have hd : (p ++ s).data = ([] : List Char) := by rw [h]
  rw [String.data_append, List.append_eq_nil] at hd
  exact String.ext hd.1

/-- The message of a network error built from a prefixed text is that text. -/
theorem NewNetworkError_prefixed (p s : String) (hp : p ≠ "") :
    NewNetworkError (p ++ s) = { Typ := ErrorNetwork, Message := p ++ s } := by
  simp only [NewNetworkError, if_neg (append_ne_empty p s hp)]

theorem request_of_newRequest_error (w : Env) (c : Client) (method path : String)
    (requireAuth : Bool) (err : String)
    (h : w.newRequest method (c.config.APIBaseURL ++ path) none = some err) :
    c.request w method path none requireAuth =
      (Except.error (NewNetworkError ("Erreur de requête : " ++ err)), []) := by
  rw [request_eq, marshalBody_none]
  simp only [h]

theorem wireRequests_of_http_nil (w : Env) (fx : List Effect) (h : httpRequests fx = []) :
    wireRequests w fx = [] := by
  simp only [wireRequests, h, withFollowed]

theorem wireRequests_of_http_single (w : Env) (fx : List Effect) (req : Request)
    (h : httpRequests fx = [req]) : wireRequests w fx = req :: w.followed req := by
  simp only [wireRequests, h, withFollowed, List.append_nil]

theorem callsDoAtMostOnce_of_atMostOne (w : Env) (fx : List Effect) (method url : String)
    (h : AtMostOne (httpRequests fx) method url) : CallsDoAtMostOnce w fx method url := by
  unfold CallsDoAtMostOnce
  unfold AtMostOne at h
  cases hl : httpRequests fx with
  | nil => exact wireRequests_of_http_nil w fx hl
  | cons req rest =>
    cases rest with
    | nil =>
      rw [hl] at h
      exact ⟨h.1, h.2, wireRequests_of_http_single w fx req hl⟩
    | cons req2 rest2 =>
      rw [hl] at h
      exact h

/-! ### Requests that are built are handed to the transport -/

theorem marshalBody_some (w : Env) (b : Body) (jsonData : String)
    (h : w.marshal b = Except.ok jsonData) :
    marshalBody w (some b) = Except.ok (some jsonData) := by
  simp only [marshalBody, h]

theorem request_callsDoWith (w : Env) (c : Client) (method path : String)
    (body : Option Body) (requireAuth : Bool) (reqBody : Option String)
    (hm : marshalBody w body = Except.ok reqBody)
    (hn : w.newRequest method (c.config.APIBaseURL ++ path) reqBody = none) :
    CallsDoWith (c.request w method path body requireAuth).2 method
      (c.config.APIBaseURL ++ path) reqBody
      (if requireAuth = true ∧ c.token ≠ "" then some ("Bearer " ++ c.token) else none) := by
  refine ⟨builtRequest c method path reqBody requireAuth, ?_, rfl, rfl, rfl,
    builtRequest_authorization c method path reqBody requireAuth⟩
  rw [request_http, hm]
  simp only [hn]

theorem callsDoWith_of_http_eq (fx fx2 : List Effect) (method url : String)
    (body auth : Option String) (h : httpRequests fx = httpRequests fx2)
    (h2 : CallsDoWith fx2 method url body auth) : CallsDoWith fx method url body auth := by
  obtain ⟨req, hreq, hrest⟩ := h2
  exact ⟨req, h.trans hreq, hrest⟩

theorem request_callsDoWith_auth (w : Env) (c : Client) (method path : String)
    (body : Option Body) (reqBody : Option String)
    (hm : marshalBody w body = Except.ok reqBody)
    (hn : w.newRequest method (c.config.APIBaseURL ++ path) reqBody = none) :
    CallsDoWith (c.request w method path body true).2 method
      (c.config.APIBaseURL ++ path) reqBody
      (if c.token ≠ "" then some ("Bearer " ++ c.token) else none) := by
  have h := request_callsDoWith w c method path body true reqBody hm hn
  simpa using h

theorem request_callsDoWith_noauth (w : Env) (c : Client) (method path : String)
    (body : Option Body) (reqBody : Option String)
    (hm : marshalBody w body = Except.ok reqBody)
    (hn : w.newRequest method (c.config.APIBaseURL ++ path) reqBody = none) :
    CallsDoWith (c.request w method path body false).2 method
      (c.config.APIBaseURL ++ path) reqBody none := by
  have h := request_callsDoWith w c method path body false reqBody hm hn
  simpa using h

/-! ### Hub chat client -/

theorem Invoke_of_handle (hub : Hub) (c : SmaRTCClient) (method : String)
    (args : List String) (h : c.client ≠ none) :
    c.Invoke hub method args = some (hub method args, [HubEvent.invoke method args]) := by
  unfold SmaRTCClient.Invoke
  cases hc : c.client with
  | none => exact absurd hc h
  | some handle => rfl

theorem LeaveRoom_of_handle (hub : Hub) (c : SmaRTCClient) (h : c.client ≠ none) :
    c.LeaveRoom hub =
      { result := Completion.returned none, client := c,
        events := if c.roomName ≠ "" ∧ c.username ≠ "" then
          [HubEvent.invoke "LeaveSession" [c.roomName, c.username]] else [] } := by
  simp only [SmaRTCClient.LeaveRoom, Invoke_of_handle hub c _ _ h]
  split_ifs <;> rfl

theorem LeaveRoom_of_empty (hub : Hub) (c : SmaRTCClient)
    (h : ¬ (c.roomName ≠ "" ∧ c.username ≠ "")) :
    c.LeaveRoom hub = { result := Completion.returned none, client := c, events := [] } := by
  simp only [SmaRTCClient.LeaveRoom, if_neg h]

/-- LeaveRoom returns when the hub handle is set or the room or the username is empty. -/
theorem LeaveRoom_returns (hub : Hub) (c : SmaRTCClient)
    (h : c.client ≠ none ∨ c.roomName = "" ∨ c.username = "") :
    c.LeaveRoom hub =
      { result := Completion.returned none, client := c,
        events := if c.roomName ≠ "" ∧ c.username ≠ "" then
          [HubEvent.invoke "LeaveSession" [c.roomName, c.username]] else [] } := by
  by_cases hc : c.client ≠ none
  · exact LeaveRoom_of_handle hub c hc
  · have hempty : ¬ (c.roomName ≠ "" ∧ c.username ≠ "") := by
      rintro ⟨hr, hu⟩
      rcases h with h | h | h
      · exact hc h
      · exact hr h
      · exact hu h
    rw [LeaveRoom_of_empty hub c hempty, if_neg hempty]

theorem JoinRoom_of_handle (hub : Hub) (c : SmaRTCClient) (roomName username : String)
    (h : c.client ≠ none) :
    c.JoinRoom hub roomName username =
      { result := Completion.returned none,
        client := { c with roomName := roomName, username := username },
        events := [HubEvent.setRoom roomName username,
                   HubEvent.invoke "JoinSession" [roomName, username]] } := by
  have h2 : ({ c with roomName := roomName, username := username } : SmaRTCClient).client ≠
      none := h
  simp only [SmaRTCClient.JoinRoom, Invoke_of_handle hub _ _ _ h2]

theorem SendMessage_of_handle (hub : Hub) (c : SmaRTCClient) (message : String)
    (h : c.client ≠ none) (hroom : c.roomName ≠ "") :
    c.SendMessage hub message =
      { result := Completion.returned none, client := c,
        events := [HubEvent.invoke "SendSignalToSession"
          [c.roomName, message, c.username]] } := by
  simp only [SmaRTCClient.SendMessage, if_neg hroom, Invoke_of_handle hub c _ _ h]

theorem Disconnect_of_LeaveRoom_returns (hub : Hub) (c : SmaRTCClient)
    (evs : List HubEvent)
    (h : c.LeaveRoom hub = { result := Completion.returned none, client := c, events := evs }) :
    c.Disconnect hub =
      { result := Completion.returned (),
        client := { c with cancelled := true, isConnected := false },
        events := evs ++ [HubEvent.cancel] ++ [HubEvent.setConnected false] ++
          (match c.OnDisconnected with
            | some h => [HubEvent.call h []]
            | none => []) } := by
  simp only [SmaRTCClient.Disconnect, h]

/-! ### Calls that return an error -/

theorem Login_client_of_error (w : Env) (c : Client) (username password : String)
    (e : SmaRTCError) (h : (c.Login w username password).result = some e) :
    (c.Login w username password).client = c := by
  simp only [Client.Login] at h ⊢
  generalize c.request w "POST" "/api/auth/login"
    (some (Body.login { Username := username, Password := password })) false = r at h ⊢
  rcases r with ⟨res, fx⟩
  cases res with
  | error err => rfl
  | ok respData =>
    simp only at h ⊢
    cases hu : w.unmarshalLoginResponse respData with
    | error err => rfl
    | ok loginResp =>
      rw [hu] at h
      exact absurd h (by simp)

theorem Register_client (w : Env) (c : Client) (username password : String) :
    (c.Register w username password).client = c := by
  simp only [Client.Register]
  generalize c.request w "POST" "/api/auth/register"
    (some (Body.login { Username := username, Password := password })) false = r
  rcases r with ⟨res, fx⟩
  cases res with
  | error err => rfl
  | ok respData =>
    simp only
    cases w.unmarshalUser respData with
    | error err => rfl
    | ok user => rfl

theorem StartCall_client_of_error (w : Env) (c : Client) (roomName : String)
    (e : SmaRTCError) (h : (c.StartCall w roomName).result = Except.error e) :
    (c.StartCall w roomName).client = c := by
  simp only [Client.StartCall] at h ⊢
  generalize c.request w "POST" "/api/session"
    (some (Body.createSession { RoomName := roomName })) true = r at h ⊢
  rcases r with ⟨res, fx⟩
  cases res with
  | error err => rfl
  | ok respData =>
    simp only at h ⊢
    cases hu : w.unmarshalSession respData with
    | error err => rfl
    | ok session =>
      rw [hu] at h
      exact absurd h (by simp)

theorem JoinCall_client_of_error (w : Env) (c : Client) (sessionID : String)
    (e : SmaRTCError) (h : (c.JoinCall w sessionID).result = Except.error e) :
    (c.JoinCall w sessionID).client = c := by
  simp only [Client.JoinCall] at h ⊢
  generalize c.request w "POST" "/api/session/join"
    (some (Body.joinSession { SessionID := sessionID })) true = r at h ⊢
  rcases r with ⟨res, fx⟩
  cases res with
  | error err => rfl
  | ok respData =>
    simp only at h ⊢
    cases hu : w.unmarshalSession respData with
    | error err => rfl
    | ok session =>
      rw [hu] at h
      exact absurd h (by simp)

theorem EndCall_client_of_error (w : Env) (c : Client) (e : SmaRTCError)
    (h : (c.EndCall w).result = some e) : (c.EndCall w).client = c := by
  by_cases hsid : c.currentSessionID = ""
  · simp [Client.EndCall, hsid]
  · simp only [Client.EndCall, if_neg hsid] at h ⊢
    generalize c.request w "DELETE" ("/api/session/" ++ c.currentSessionID) none true = r
      at h ⊢
    rcases r with ⟨res, fx⟩
    cases res with
    | error err => rfl
    | ok respData => exact absurd h (by simp)

theorem GetAvailableCalls_client (w : Env) (c : Client) :
    (c.GetAvailableCalls w).client = c := by
  simp only [Client.GetAvailableCalls]
  generalize c.request w "GET" "/api/session" none true = r
  rcases r with ⟨res, fx⟩
  cases res with
  | error err => rfl
  | ok respData =>
    simp only
    cases w.unmarshalSessions respData with
    | error err => rfl
    | ok sessions => rfl

theorem EndCall_of_empty (w : Env) (c : Client) (hsid : c.currentSessionID = "") :
    c.EndCall w =
      { result := some (NewGenericError "Aucun appel en cours"), client := c, effects := [] } := by
  simp only [Client.EndCall, if_pos hsid]

theorem EndCall_of_request_ok (w : Env) (c : Client) (respData : String)
    (hsid : c.currentSessionID ≠ "")
    (h : (c.request w "DELETE" ("/api/session/" ++ c.currentSessionID) none true).1 =
      Except.ok respData) :
    (c.EndCall w).result = none ∧
    (c.EndCall w).client = { c with currentSessionID := "" } := by
  simp only [Client.EndCall, if_neg hsid]
  generalize c.request w "DELETE" ("/api/session/" ++ c.currentSessionID) none true = r at h
  rcases r with ⟨res, fx⟩
  simp only at h
  subst h
  exact ⟨rfl, rfl⟩

theorem GetICEServers_of_request_ok (w : Env) (c : Client) (respData : String)
    (h : (c.request w "GET" "/api/webrtc/ice" none true).1 = Except.ok respData) :
    (c.GetICEServers w).result =
      (match w.unmarshalICEServers respData with
        | Except.error err => Except.error (NewGenericError ("Erreur de parsing : " ++ err))
        | Except.ok iceServers => Except.ok iceServers) ∧
    (c.GetICEServers w).client = c := by
  simp only [Client.GetICEServers]
  generalize c.request w "GET" "/api/webrtc/ice" none true = r at h
  rcases r with ⟨res, fx⟩
  simp only at h
  subst h
  simp only
  cases w.unmarshalICEServers respData with
  | error err => exact ⟨rfl, rfl⟩
  | ok iceServers => exact ⟨rfl, rfl⟩

/-! ## Specified properties -/

/-- C1: in `Client.request`, when the request handed to the transport is answered with
status `status` and body `respBody`: status 401 gives an `ErrorAuthentication` error,
status 404 an `ErrorSessionNotFound` error, every other status of at least 400 an
`ErrorGeneric` error with message "Erreur HTTP <status in decimal> : <body>"; in the
three cases the call returns an error and no response bytes. -/
theorem request_status_error_mapping (w : Env) (c : Client) (method path : String)
    (body : Option Body) (requireAuth : Bool) (req : Request) (status : Int)
    (respBody : String)
    (hsent : req ∈ httpRequests (c.request w method path body requireAuth).2)
    (hresp : w.roundTrip req = RoundTrip.response status respBody) :
    (status = 401 → ∃ e, (c.request w method path body requireAuth).1 = Except.error e ∧
        e.Typ = ErrorAuthentication) ∧
    (status = 404 → ∃ e, (c.request w method path body requireAuth).1 = Except.error e ∧
        e.Typ = ErrorSessionNotFound) ∧
    (400 ≤ status → status ≠ 401 → status ≠ 404 →
      ∃ e, (c.request w method path body requireAuth).1 = Except.error e ∧
        e.Typ = ErrorGeneric ∧
        e.Error = "Erreur HTTP " ++ Nat.repr status.toNat ++ " : " ++ respBody) := by
  rw [request_result_of_sent w c method path body requireAuth req hsent, hresp]
  refine ⟨?_, ?_, ?_⟩
  · intro h
    subst h
    exact ⟨_, rfl, rfl⟩
  · intro h
    subst h
    exact ⟨_, rfl, rfl⟩
  · intro h4 h401 h404
    refine ⟨NewGenericError ("Erreur HTTP " ++ fmtInt status ++ " : " ++ respBody), ?_, rfl, ?_⟩
    · simp [mapRoundTrip, h4, h401, h404]
    · simp [SmaRTCError.Error, NewGenericError, fmtInt_of_nonneg status (by omega)]

theorem request_status_error_mapping_witness :
    (∃ e, (sampleClient.request (sampleEnvWith (RoundTrip.response 401 "no")) "GET" "/api/session"
        none true).1 = Except.error e ∧ e.Typ = ErrorAuthentication) ∧
    (∃ e, (sampleClient.request (sampleEnvWith (RoundTrip.response 500 "boom")) "GET"
        "/api/session" none true).1 = Except.error e ∧ e.Typ = ErrorGeneric ∧
        e.Error = "Erreur HTTP 500 : boom") :=
  ⟨(request_status_error_mapping (sampleEnvWith (RoundTrip.response 401 "no")) sampleClient
      "GET" "/api/session" none true
      (builtRequest sampleClient "GET" "/api/session" none true) 401 "no"
      (by decide) rfl).1 rfl,
   (request_status_error_mapping (sampleEnvWith (RoundTrip.response 500 "boom")) sampleClient
      "GET" "/api/session" none true
      (builtRequest sampleClient "GET" "/api/session" none true) 500 "boom"
      (by decide) rfl).2.2 (by decide) (by decide) (by decide)⟩

/-- C2: whenever the ICE fetch fails (`http.NewRequest` rejects the request, the round
trip fails, reading the body fails, or the response has a status of at least 400, 401
and 404 included), and more generally whenever `request` returns any error,
`GetICEServers` returns a nil error and exactly one server with URLs
`["stun:stun.l.google.com:19302"]` and no username or credential; the client state is
unchanged. -/
theorem GetICEServers_fallback_on_fetch_failure (w : Env) (c : Client)
    (hfail : (∃ e, (c.request w "GET" "/api/webrtc/ice" none true).1 = Except.error e) ∨
      (∃ err, w.newRequest "GET" (c.config.APIBaseURL ++ "/api/webrtc/ice") none = some err) ∨
      (∃ err, w.roundTrip (builtRequest c "GET" "/api/webrtc/ice" none true) =
        RoundTrip.doError err) ∨
      (∃ status err, w.roundTrip (builtRequest c "GET" "/api/webrtc/ice" none true) =
        RoundTrip.readError status err) ∨
      (∃ status respBody, w.roundTrip (builtRequest c "GET" "/api/webrtc/ice" none true) =
        RoundTrip.response status respBody ∧ 400 ≤ status)) :
    (c.GetICEServers w).result = Except.ok
      [{ URLs := ["stun:stun.l.google.com:19302"], Username := none, Credential := none }] ∧
    (c.GetICEServers w).client = c := by
  have herr : ∃ e, (c.request w "GET" "/api/webrtc/ice" none true).1 = Except.error e := by
    rcases hfail with h | h
    · exact h
    · exact request_none_error w c "GET" "/api/webrtc/ice" true h
  obtain ⟨e, he⟩ := herr
  exact GetICEServers_of_request_error w c e he

theorem GetICEServers_fallback_on_fetch_failure_witness :
    (sampleClient.GetICEServers (sampleEnvWith (RoundTrip.response 401 "denied"))).result =
      Except.ok
        [{ URLs := ["stun:stun.l.google.com:19302"], Username := none, Credential := none }] ∧
    (sampleClient.GetICEServers (sampleEnvWith (RoundTrip.doError "dial tcp: refused"))).result =
      Except.ok
        [{ URLs := ["stun:stun.l.google.com:19302"], Username := none, Credential := none }] :=
  ⟨(GetICEServers_fallback_on_fetch_failure (sampleEnvWith (RoundTrip.response 401 "denied"))
      sampleClient
      (Or.inr (Or.inr (Or.inr (Or.inr ⟨401, "denied", rfl, by decide⟩))))).1,
   (GetICEServers_fallback_on_fetch_failure (sampleEnvWith (RoundTrip.doError "dial tcp: refused"))
      sampleClient (Or.inr (Or.inr (Or.inl ⟨"dial tcp: refused", rfl⟩)))).1⟩

/-- C4: when the request `Login` sends is answered with a status below 400 and a body
that parses as a LoginResponse, `Login` returns nil, CurrentUsername() is the
user.username field of the response, whatever the username argument was, and the stored
token is the token field of the response. -/
theorem Login_stores_server_username (w : Env) (c : Client) (username password : String)
    (req : Request) (status : Int) (respBody : String) (loginResp : LoginResponse)
    (hsent : req ∈ httpRequests (c.Login w username password).effects)
    (hresp : w.roundTrip req = RoundTrip.response status respBody)
    (hstatus : status < 400)
    (hparse : w.unmarshalLoginResponse respBody = Except.ok loginResp) :
    (c.Login w username password).result = none ∧
    (c.Login w username password).client.CurrentUsername = loginResp.User.Username ∧
    (c.Login w username password).client.token = loginResp.Token := by
  rw [Login_http] at hsent
  have hok := request_ok_of_sent w c "POST" "/api/auth/login"
    (some (Body.login { Username := username, Password := password })) false req status
    respBody hsent hresp hstatus
  simp only [Client.Login]
  generalize c.request w "POST" "/api/auth/login"
    (some (Body.login { Username := username, Password := password })) false = r at hok
  rcases r with ⟨res, fx⟩
  simp only at hok
  subst hok
  simp [hparse, Client.CurrentUsername]

theorem Login_stores_server_username_witness :
    ((NewClient none).Login loginEnv "alice" "password123").result = none ∧
    ((NewClient none).Login loginEnv "alice" "password123").client.CurrentUsername =
      "Alice.Server" ∧
    ((NewClient none).Login loginEnv "alice" "password123").client.token = "jwt-1" :=
  Login_stores_server_username loginEnv (NewClient none) "alice" "password123"
    (builtRequest (NewClient none) "POST" "/api/auth/login" (some "{}") false) 200 "{}"
    { Token := "jwt-1", User := { ID := "42", Username := "Alice.Server" } }
    (by decide) rfl (by decide) rfl

/-- The Authorization header of every request of the seven operations, and the number
of requests with an empty token. -/
theorem authorization_of_requests (w : Env) (c : Client) :
    (∀ username password, ∀ req ∈ httpRequests (c.Login w username password).effects,
      req.header.Get "Authorization" = none) ∧
    (∀ username password, ∀ req ∈ httpRequests (c.Register w username password).effects,
      req.header.Get "Authorization" = none) ∧
    (∀ roomName, ∀ req ∈ httpRequests (c.StartCall w roomName).effects,
      req.header.Get "Authorization" =
        (if c.token ≠ "" then some ("Bearer " ++ c.token) else none)) ∧
    (∀ sessionID, ∀ req ∈ httpRequests (c.JoinCall w sessionID).effects,
      req.header.Get "Authorization" =
        (if c.token ≠ "" then some ("Bearer " ++ c.token) else none)) ∧
    (∀ req ∈ httpRequests (c.EndCall w).effects,
      req.header.Get "Authorization" =
        (if c.token ≠ "" then some ("Bearer " ++ c.token) else none)) ∧
    (∀ req ∈ httpRequests (c.GetAvailableCalls w).effects,
      req.header.Get "Authorization" =
        (if c.token ≠ "" then some ("Bearer " ++ c.token) else none)) ∧
    (∀ req ∈ httpRequests (c.GetICEServers w).effects,
      req.header.Get "Authorization" =
        (if c.token ≠ "" then some ("Bearer " ++ c.token) else none)) ∧
    (∀ roomName,
      (httpRequests (({ c with token := "" } : Client).StartCall w roomName).effects).length =
        (httpRequests (c.StartCall w roomName).effects).length) ∧
    (∀ sessionID,
      (httpRequests (({ c with token := "" } : Client).JoinCall w sessionID).effects).length =
        (httpRequests (c.JoinCall w sessionID).effects).length) ∧
    (httpRequests (({ c with token := "" } : Client).EndCall w).effects).length =
      (httpRequests (c.EndCall w).effects).length ∧
    (httpRequests (({ c with token := "" } : Client).GetAvailableCalls w).effects).length =
      (httpRequests (c.GetAvailableCalls w).effects).length ∧
    (httpRequests (({ c with token := "" } : Client).GetICEServers w).effects).length =
      (httpRequests (c.GetICEServers w).effects).length := by
  have hauth : ∀ method path body (req : Request),
      req ∈ httpRequests (c.request w method path body true).2 →
      req.header.Get "Authorization" =
        (if c.token ≠ "" then some ("Bearer " ++ c.token) else none) := by
    intro method path body req hsent
    rw [request_authorization w c method path body true req hsent]
    simp
  have hnone : ∀ method path body (req : Request),
      req ∈ httpRequests (c.request w method path body false).2 →
      req.header.Get "Authorization" = none := by
    intro method path body req hsent
    rw [request_authorization w c method path body false req hsent]
    simp
  refine ⟨?_, ?_, ?_, ?_, ?_, ?_, ?_, ?_, ?_, EndCall_http_length_token w c "", ?_, ?_⟩
  · intro username password req hsent
    rw [Login_http] at hsent
    exact hnone _ _ _ req hsent
  · intro username password req hsent
    rw [Register_http] at hsent
    exact hnone _ _ _ req hsent
  · intro roomName req hsent
    rw [StartCall_http] at hsent
    exact hauth _ _ _ req hsent
  · intro sessionID req hsent
    rw [JoinCall_http] at hsent
    exact hauth _ _ _ req hsent
  · intro req hsent
    by_cases hsid : c.currentSessionID = ""
    · rw [EndCall_http_of_empty w c hsid] at hsent
      exact absurd hsent (List.not_mem_nil _)
    · rw [EndCall_http w c hsid] at hsent
      exact hauth _ _ _ req hsent
  · intro req hsent
    rw [GetAvailableCalls_http] at hsent
    exact hauth _ _ _ req hsent
  · intro req hsent
    rw [GetICEServers_http] at hsent
    exact hauth _ _ _ req hsent
  · intro roomName
    rw [StartCall_http, StartCall_http]
    exact request_http_length_token w c "" _ _ _ _
  · intro sessionID
    rw [JoinCall_http, JoinCall_http]
    exact request_http_length_token w c "" _ _ _ _
  · rw [GetAvailableCalls_http, GetAvailableCalls_http]
    exact request_http_length_token w c "" _ _ _ _
  · rw [GetICEServers_http, GetICEServers_http]
    exact request_http_length_token w c "" _ _ _ _

/-- C7: a request handed to `httpClient.Do` carries Authorization = "Bearer " + token
exactly when its operation requires authentication and the stored token is non-empty.
Whenever its request can be built (`json.Marshal` and `http.NewRequest` succeed), Login
and Register hand one request without an Authorization header to the transport,
whatever the stored token, and StartCall, JoinCall, EndCall (with a call in progress),
GetAvailableCalls and GetICEServers hand one request that carries "Bearer " + token when
the token is non-empty and no Authorization header when it is empty: with an empty
token the request is still sent. No request of these operations carries any other
Authorization header, and these five send as many requests with an empty token as with
any other. -/
theorem authorization_header_iff_auth_and_token (w : Env) (c : Client) :
    (∀ username password jsonData,
      w.marshal (Body.login { Username := username, Password := password }) =
        Except.ok jsonData →
      w.newRequest "POST" (c.config.APIBaseURL ++ "/api/auth/login") (some jsonData) = none →
      CallsDoWith (c.Login w username password).effects "POST"
        (c.config.APIBaseURL ++ "/api/auth/login") (some jsonData) none) ∧
    (∀ username password jsonData,
      w.marshal (Body.login { Username := username, Password := password }) =
        Except.ok jsonData →
      w.newRequest "POST" (c.config.APIBaseURL ++ "/api/auth/register") (some jsonData) =
        none →
      CallsDoWith (c.Register w username password).effects "POST"
        (c.config.APIBaseURL ++ "/api/auth/register") (some jsonData) none) ∧
    (∀ roomName jsonData,
      w.marshal (Body.createSession { RoomName := roomName }) = Except.ok jsonData →
      w.newRequest "POST" (c.config.APIBaseURL ++ "/api/session") (some jsonData) = none →
      CallsDoWith (c.StartCall w roomName).effects "POST"
        (c.config.APIBaseURL ++ "/api/session") (some jsonData)
        (if c.token ≠ "" then some ("Bearer " ++ c.token) else none)) ∧
    (∀ sessionID jsonData,
      w.marshal (Body.joinSession { SessionID := sessionID }) = Except.ok jsonData →
      w.newRequest "POST" (c.config.APIBaseURL ++ "/api/session/join") (some jsonData) =
        none →
      CallsDoWith (c.JoinCall w sessionID).effects "POST"
        (c.config.APIBaseURL ++ "/api/session/join") (some jsonData)
        (if c.token ≠ "" then some ("Bearer " ++ c.token) else none)) ∧
    (c.currentSessionID ≠ "" →
      w.newRequest "DELETE" (c.config.APIBaseURL ++ ("/api/session/" ++ c.currentSessionID))
        none = none →
      CallsDoWith (c.EndCall w).effects "DELETE"
        (c.config.APIBaseURL ++ ("/api/session/" ++ c.currentSessionID)) none
        (if c.token ≠ "" then some ("Bearer " ++ c.token) else none)) ∧
    (w.newRequest "GET" (c.config.APIBaseURL ++ "/api/session") none = none →
      CallsDoWith (c.GetAvailableCalls w).effects "GET"
        (c.config.APIBaseURL ++ "/api/session") none
        (if c.token ≠ "" then some ("Bearer " ++ c.token) else none)) ∧
    (w.newRequest "GET" (c.config.APIBaseURL ++ "/api/webrtc/ice") none = none →
      CallsDoWith (c.GetICEServers w).effects "GET"
        (c.config.APIBaseURL ++ "/api/webrtc/ice") none
        (if c.token ≠ "" then some ("Bearer " ++ c.token) else none)) ∧
    (∀ username password, ∀ req ∈ httpRequests (c.Login w username password).effects,
      req.header.Get "Authorization" = none) ∧
    (∀ username password, ∀ req ∈ httpRequests (c.Register w username password).effects,
      req.header.Get "Authorization" = none) ∧
    (∀ roomName, ∀ req ∈ httpRequests (c.StartCall w roomName).effects,
      req.header.Get "Authorization" =
        (if c.token ≠ "" then some ("Bearer " ++ c.token) else none)) ∧
    (∀ sessionID, ∀ req ∈ httpRequests (c.JoinCall w sessionID).effects,
      req.header.Get "Authorization" =
        (if c.token ≠ "" then some ("Bearer " ++ c.token) else none)) ∧
    (∀ req ∈ httpRequests (c.EndCall w).effects,
      req.header.Get "Authorization" =
        (if c.token ≠ "" then some ("Bearer " ++ c.token) else none)) ∧
    (∀ req ∈ httpRequests (c.GetAvailableCalls w).effects,
      req.header.Get "Authorization" =
        (if c.token ≠ "" then some ("Bearer " ++ c.token) else none)) ∧
    (∀ req ∈ httpRequests (c.GetICEServers w).effects,
      req.header.Get "Authorization" =
        (if c.token ≠ "" then some ("Bearer " ++ c.token) else none)) ∧
    (∀ roomName,
      (httpRequests (({ c with token := "" } : Client).StartCall w roomName).effects).length =
        (httpRequests (c.StartCall w roomName).effects).length) ∧
    (∀ sessionID,
      (httpRequests (({ c with token := "" } : Client).JoinCall w sessionID).effects).length =
        (httpRequests (c.JoinCall w sessionID).effects).length) ∧
    (httpRequests (({ c with token := "" } : Client).EndCall w).effects).length =
      (httpRequests (c.EndCall w).effects).length ∧
    (httpRequests (({ c with token := "" } : Client).GetAvailableCalls w).effects).length =
      (httpRequests (c.GetAvailableCalls w).effects).length ∧
    (httpRequests (({ c with token := "" } : Client).GetICEServers w).effects).length =
      (httpRequests (c.GetICEServers w).effects).length := by
  refine ⟨?_, ?_, ?_, ?_, ?_, ?_, ?_, authorization_of_requests w c⟩
  · intro username password jsonData hm hn
    exact callsDoWith_of_http_eq _ _ _ _ _ _ (Login_http w c username password)
      (request_callsDoWith_noauth w c _ _ _ _ (marshalBody_some w _ _ hm) hn)
  · intro username password jsonData hm hn
    exact callsDoWith_of_http_eq _ _ _ _ _ _ (Register_http w c username password)
      (request_callsDoWith_noauth w c _ _ _ _ (marshalBody_some w _ _ hm) hn)
  · intro roomName jsonData hm hn
    exact callsDoWith_of_http_eq _ _ _ _ _ _ (StartCall_http w c roomName)
      (request_callsDoWith_auth w c _ _ _ _ (marshalBody_some w _ _ hm) hn)
  · intro sessionID jsonData hm hn
    exact callsDoWith_of_http_eq _ _ _ _ _ _ (JoinCall_http w c sessionID)
      (request_callsDoWith_auth w c _ _ _ _ (marshalBody_some w _ _ hm) hn)
  · intro hsid hn
    exact callsDoWith_of_http_eq _ _ _ _ _ _ (EndCall_http w c hsid)
      (request_callsDoWith_auth w c _ _ _ _ (marshalBody_none w) hn)
  · intro hn
    exact callsDoWith_of_http_eq _ _ _ _ _ _ (GetAvailableCalls_http w c)
      (request_callsDoWith_auth w c _ _ _ _ (marshalBody_none w) hn)
  · intro hn
    exact callsDoWith_of_http_eq _ _ _ _ _ _ (GetICEServers_http w c)
      (request_callsDoWith_auth w c _ _ _ _ (marshalBody_none w) hn)

theorem authorization_header_iff_auth_and_token_witness :
    CallsDoWith (sampleClient.Login sampleEnv "alice" "pw").effects "POST"
      "http://localhost:8080/api/auth/login" (some "{}") none ∧
    CallsDoWith (sampleClient.Register sampleEnv "alice" "pw").effects "POST"
      "http://localhost:8080/api/auth/register" (some "{}") none ∧
    CallsDoWith (sampleClient.StartCall sampleEnv "Backend").effects "POST"
      "http://localhost:8080/api/session" (some "{}") (some "Bearer tok") ∧
    CallsDoWith (tokenlessClient.StartCall sampleEnv "Backend").effects "POST"
      "http://localhost:8080/api/session" (some "{}") none ∧
    CallsDoWith (sampleClient.JoinCall sampleEnv "s2").effects "POST"
      "http://localhost:8080/api/session/join" (some "{}") (some "Bearer tok") ∧
    CallsDoWith (tokenlessClient.JoinCall sampleEnv "s2").effects "POST"
      "http://localhost:8080/api/session/join" (some "{}") none ∧
    CallsDoWith (sampleClient.EndCall sampleEnv).effects "DELETE"
      "http://localhost:8080/api/session/s1" none (some "Bearer tok") ∧
    CallsDoWith (tokenlessClient.EndCall sampleEnv).effects "DELETE"
      "http://localhost:8080/api/session/s1" none none ∧
    CallsDoWith (sampleClient.GetAvailableCalls sampleEnv).effects "GET"
      "http://localhost:8080/api/session" none (some "Bearer tok") ∧
    CallsDoWith (tokenlessClient.GetAvailableCalls sampleEnv).effects "GET"
      "http://localhost:8080/api/session" none none ∧
    CallsDoWith (sampleClient.GetICEServers sampleEnv).effects "GET"
      "http://localhost:8080/api/webrtc/ice" none (some "Bearer tok") ∧
    CallsDoWith (tokenlessClient.GetICEServers sampleEnv).effects "GET"
      "http://localhost:8080/api/webrtc/ice" none none :=
  ⟨(authorization_header_iff_auth_and_token sampleEnv sampleClient).1 "alice" "pw" "{}"
      rfl rfl,
   (authorization_header_iff_auth_and_token sampleEnv sampleClient).2.1 "alice" "pw" "{}"
      rfl rfl,
   (authorization_header_iff_auth_and_token sampleEnv sampleClient).2.2.1 "Backend" "{}"
      rfl rfl,
   (authorization_header_iff_auth_and_token sampleEnv tokenlessClient).2.2.1 "Backend" "{}"
      rfl rfl,
   (authorization_header_iff_auth_and_token sampleEnv sampleClient).2.2.2.1 "s2" "{}"
      rfl rfl,
   (authorization_header_iff_auth_and_token sampleEnv tokenlessClient).2.2.2.1 "s2" "{}"
      rfl rfl,
   (authorization_header_iff_auth_and_token sampleEnv sampleClient).2.2.2.2.1
      (by decide) rfl,
   (authorization_header_iff_auth_and_token sampleEnv tokenlessClient).2.2.2.2.1
      (by decide) rfl,
   (authorization_header_iff_auth_and_token sampleEnv sampleClient).2.2.2.2.2.1 rfl,
   (authorization_header_iff_auth_and_token sampleEnv tokenlessClient).2.2.2.2.2.1 rfl,
   (authorization_header_iff_auth_and_token sampleEnv sampleClient).2.2.2.2.2.2.1 rfl,
   (authorization_header_iff_auth_and_token sampleEnv tokenlessClient).2.2.2.2.2.2.1 rfl⟩

/-- C8: the four constructors build errors of type ErrorAuthentication,
ErrorSessionNotFound, ErrorNetwork and ErrorGeneric, four pairwise distinct values;
`Error()` returns the message given when it is non-empty; for an empty message the
first three return "Identifiants incorrects", "Cet appel n'existe pas" and "Problème de
connexion", so an error built by one of these three never has an empty message. -/
theorem error_constructors (m : String) :
    (NewAuthError m).Typ = ErrorAuthentication ∧
    (NewSessionNotFoundError m).Typ = ErrorSessionNotFound ∧
    (NewNetworkError m).Typ = ErrorNetwork ∧
    (NewGenericError m).Typ = ErrorGeneric ∧
    [ErrorAuthentication, ErrorSessionNotFound, ErrorNetwork, ErrorGeneric].Nodup ∧
    (m ≠ "" → (NewAuthError m).Error = m ∧ (NewSessionNotFoundError m).Error = m ∧
      (NewNetworkError m).Error = m ∧ (NewGenericError m).Error = m) ∧
    (m = "" → (NewAuthError m).Error = "Identifiants incorrects" ∧
      (NewSessionNotFoundError m).Error = "Cet appel n'existe pas" ∧
      (NewNetworkError m).Error = "Problème de connexion") ∧
    (NewAuthError m).Error ≠ "" ∧ (NewSessionNotFoundError m).Error ≠ "" ∧
    (NewNetworkError m).Error ≠ "" := by
  refine ⟨rfl, rfl, rfl, rfl, by decide, ?_, ?_, ?_, ?_, ?_⟩
  · intro hm
    simp [NewAuthError, NewSessionNotFoundError, NewNetworkError, NewGenericError,
      SmaRTCError.Error, hm]
  · intro hm
    subst hm
    exact ⟨rfl, rfl, rfl⟩
  · by_cases hm : m = ""
    · subst hm; decide
    · simp [NewAuthError, SmaRTCError.Error, hm]
  · by_cases hm : m = ""
    · subst hm; decide
    · simp [NewSessionNotFoundError, SmaRTCError.Error, hm]
  · by_cases hm : m = ""
    · subst hm; decide
    · simp [NewNetworkError, SmaRTCError.Error, hm]

theorem error_constructors_witness :
    (NewNetworkError "").Error = "Problème de connexion" ∧
    (NewAuthError "jeton expiré").Error = "jeton expiré" ∧
    (NewGenericError "").Error = "" :=
  ⟨((error_constructors "").2.2.2.2.2.2.1 rfl).2.2,
   ((error_constructors "jeton expiré").2.2.2.2.2.1 (by decide)).1, rfl⟩

/-- C9 fails as stated: on a client that never connected (no hub handle), JoinRoom
stores room and user and then panics at `c.client.Invoke`; it neither invokes
JoinSession nor returns nil. -/
theorem JoinRoom_panics_without_hub_handle :
    freshChatClient.client = none ∧
    (freshChatClient.JoinRoom sampleHub "go-chat-room" "alice").result =
      Completion.panicked nilDereference ∧
    invocations (freshChatClient.JoinRoom sampleHub "go-chat-room" "alice").events = [] ∧
    (freshChatClient.JoinRoom sampleHub "go-chat-room" "alice").client.GetRoomName =
      "go-chat-room" :=
  ⟨rfl, rfl, rfl, rfl⟩

/-- C9 (amended): on a client whose hub handle is set, whatever the hub answers to an
invocation, JoinRoom(room, user) stores room and user (GetRoomName() = room,
GetUsername() = user), invokes JoinSession(room, user) once and returns nil;
SendMessage(m) with a non-empty stored room invokes SendSignalToSession(storedRoom, m,
storedUser) once and returns nil; LeaveRoom returns nil and invokes
LeaveSession(storedRoom, storedUser) exactly when the stored room and the stored
username are both non-empty. With an empty stored room or username LeaveRoom returns
nil and invokes nothing, with or without a hub handle. -/
theorem hub_invocations_fire_and_forget (hub : Hub) (c : SmaRTCClient) :
    (c.client ≠ none →
      (∀ room user,
        (c.JoinRoom hub room user).result = Completion.returned none ∧
        (c.JoinRoom hub room user).client.GetRoomName = room ∧
        (c.JoinRoom hub room user).client.GetUsername = user ∧
        (c.JoinRoom hub room user).client.client = c.client ∧
        invocations (c.JoinRoom hub room user).events = [("JoinSession", [room, user])]) ∧
      (∀ m, c.roomName ≠ "" →
        (c.SendMessage hub m).result = Completion.returned none ∧
        (c.SendMessage hub m).client = c ∧
        invocations (c.SendMessage hub m).events =
          [("SendSignalToSession", [c.roomName, m, c.username])]) ∧
      (c.LeaveRoom hub).result = Completion.returned none ∧
      (c.LeaveRoom hub).client = c ∧
      (c.roomName ≠ "" ∧ c.username ≠ "" →
        invocations (c.LeaveRoom hub).events =
          [("LeaveSession", [c.roomName, c.username])])) ∧
    (¬ (c.roomName ≠ "" ∧ c.username ≠ "") →
      (c.LeaveRoom hub).result = Completion.returned none ∧
      (c.LeaveRoom hub).client = c ∧
      invocations (c.LeaveRoom hub).events = []) := by
  refine ⟨?_, ?_⟩
  · intro hc
    refine ⟨?_, ?_, ?_, ?_, ?_⟩
    · intro room user
      rw [JoinRoom_of_handle hub c room user hc]
      exact ⟨rfl, rfl, rfl, rfl, rfl⟩
    · intro m hroom
      rw [SendMessage_of_handle hub c m hc hroom]
      exact ⟨rfl, rfl, rfl⟩
    · rw [LeaveRoom_of_handle hub c hc]
    · rw [LeaveRoom_of_handle hub c hc]
    · intro h
      rw [LeaveRoom_of_handle hub c hc]
      simp only [if_pos h]
      rfl
  · intro h
    rw [LeaveRoom_of_empty hub c h]
    exact ⟨rfl, rfl, rfl⟩

theorem hub_invocations_fire_and_forget_witness :
    invocations ((freshChatClient.Connect none).client.JoinRoom failingHub "go-chat-room"
      "alice").events = [("JoinSession", ["go-chat-room", "alice"])] ∧
    invocations (sampleChatClient.SendMessage failingHub "salut").events =
      [("SendSignalToSession", ["go-chat-room", "salut", "alice"])] ∧
    (sampleChatClient.SendMessage failingHub "salut").result = Completion.returned none ∧
    invocations (sampleChatClient.LeaveRoom sampleHub).events =
      [("LeaveSession", ["go-chat-room", "alice"])] ∧
    (freshChatClient.LeaveRoom sampleHub).result = Completion.returned none :=
  ⟨(((hub_invocations_fire_and_forget failingHub (freshChatClient.Connect none).client).1
      (by decide)).1 "go-chat-room" "alice").2.2.2.2,
   ((((hub_invocations_fire_and_forget failingHub sampleChatClient).1 (by decide)).2.1)
      "salut" (by decide)).2.2,
   ((((hub_invocations_fire_and_forget failingHub sampleChatClient).1 (by decide)).2.1)
      "salut" (by decide)).1,
   ((hub_invocations_fire_and_forget sampleHub sampleChatClient).1 (by decide)).2.2.2.2
      (by decide),
   ((hub_invocations_fire_and_forget sampleHub freshChatClient).2 (by decide)).1⟩

/-- C10 fails as stated: on the client a panicked JoinRoom leaves behind (room and user
stored, no hub handle), Disconnect panics inside LeaveRoom; the context is not
cancelled and no later step runs. -/
theorem Disconnect_panics_without_hub_handle :
    (freshChatClient.JoinRoom sampleHub "go-chat-room" "alice").client.client = none ∧
    ((freshChatClient.JoinRoom sampleHub "go-chat-room" "alice").client.Disconnect
      sampleHub).result = Completion.panicked nilDereference ∧
    ((freshChatClient.JoinRoom sampleHub "go-chat-room" "alice").client.Disconnect
      sampleHub).events = [] ∧
    ((freshChatClient.JoinRoom sampleHub "go-chat-room" "alice").client.Disconnect
      sampleHub).client.cancelled = false :=
  ⟨rfl, rfl, rfl, rfl⟩

/-- C10 (amended): for every state of a chat client made by `NewSmaRTCClient` (its
context is set) whose hub handle is set, or whose stored room or username is empty,
Disconnect returns and its events are, in this order: the
LeaveSession(room, user) invocation of LeaveRoom, present only when the stored room and
username are both non-empty; the cancellation of the context; the store of false in the
connected flag; the call of OnDisconnected, present only when one is set. Afterwards
IsConnected() is false and the stored room name and username are unchanged. -/
theorem Disconnect_steps_in_order (hub : Hub) (c : SmaRTCClient)
    (h : c.client ≠ none ∨ c.roomName = "" ∨ c.username = "") :
    (c.Disconnect hub).result = Completion.returned () ∧
    (c.Disconnect hub).events =
      (if c.roomName ≠ "" ∧ c.username ≠ "" then
        [HubEvent.invoke "LeaveSession" [c.roomName, c.username]] else []) ++
      [HubEvent.cancel] ++ [HubEvent.setConnected false] ++
      (match c.OnDisconnected with
        | some h => [HubEvent.call h []]
        | none => []) ∧
    (c.Disconnect hub).events.take (c.LeaveRoom hub).events.length = (c.LeaveRoom hub).events ∧
    (c.Disconnect hub).client.IsConnected = false ∧
    (c.Disconnect hub).client.cancelled = true ∧
    (c.Disconnect hub).client.GetRoomName = c.roomName ∧
    (c.Disconnect hub).client.GetUsername = c.username := by
  have hleft := LeaveRoom_returns hub c h
  rw [Disconnect_of_LeaveRoom_returns hub c _ hleft, hleft]
  refine ⟨rfl, rfl, ?_, rfl, rfl, rfl, rfl⟩
  simp only [List.append_assoc, List.take_left]

theorem Disconnect_steps_in_order_witness :
    (sampleChatClient.Disconnect sampleHub).events =
      [HubEvent.invoke "LeaveSession" ["go-chat-room", "alice"], HubEvent.cancel,
       HubEvent.setConnected false, HubEvent.call 7 []] ∧
    (sampleChatClient.Disconnect sampleHub).client.IsConnected = false ∧
    (freshChatClient.Disconnect sampleHub).events =
      [HubEvent.cancel, HubEvent.setConnected false] :=
  ⟨(Disconnect_steps_in_order sampleHub sampleChatClient (Or.inl (by decide))).2.1,
   (Disconnect_steps_in_order sampleHub sampleChatClient (Or.inl (by decide))).2.2.2.1,
   (Disconnect_steps_in_order sampleHub freshChatClient (Or.inr (Or.inl rfl))).2.1⟩

/-- C11: whenever Login, Register, StartCall, JoinCall, EndCall or GetAvailableCalls
returns a non-nil error, whatever its cause, the client after the call is the client
before it: token, currentUsername and currentSessionID are what they were. In
particular a failed Login leaves IsLoggedIn as it was and a failed EndCall keeps the
current session id. -/
theorem failed_call_keeps_client_state (w : Env) (c : Client) :
    (∀ username password e, (c.Login w username password).result = some e →
      (c.Login w username password).client.token = c.token ∧
      (c.Login w username password).client.currentUsername = c.currentUsername ∧
      (c.Login w username password).client.currentSessionID = c.currentSessionID ∧
      (c.Login w username password).client.IsLoggedIn = c.IsLoggedIn) ∧
    (∀ username password e, (c.Register w username password).result = Except.error e →
      (c.Register w username password).client.token = c.token ∧
      (c.Register w username password).client.currentUsername = c.currentUsername ∧
      (c.Register w username password).client.currentSessionID = c.currentSessionID) ∧
    (∀ roomName e, (c.StartCall w roomName).result = Except.error e →
      (c.StartCall w roomName).client.token = c.token ∧
      (c.StartCall w roomName).client.currentUsername = c.currentUsername ∧
      (c.StartCall w roomName).client.currentSessionID = c.currentSessionID) ∧
    (∀ sessionID e, (c.JoinCall w sessionID).result = Except.error e →
      (c.JoinCall w sessionID).client.token = c.token ∧
      (c.JoinCall w sessionID).client.currentUsername = c.currentUsername ∧
      (c.JoinCall w sessionID).client.currentSessionID = c.currentSessionID) ∧
    (∀ e, (c.EndCall w).result = some e →
      (c.EndCall w).client.token = c.token ∧
      (c.EndCall w).client.currentUsername = c.currentUsername ∧
      (c.EndCall w).client.currentSessionID = c.currentSessionID ∧
      (c.EndCall w).client.CurrentSessionID = c.CurrentSessionID) ∧
    (∀ e, (c.GetAvailableCalls w).result = Except.error e →
      (c.GetAvailableCalls w).client.token = c.token ∧
      (c.GetAvailableCalls w).client.currentUsername = c.currentUsername ∧
      (c.GetAvailableCalls w).client.currentSessionID = c.currentSessionID) := by
  refine ⟨?_, ?_, ?_, ?_, ?_, ?_⟩
  · intro username password e h
    rw [Login_client_of_error w c username password e h]
    exact ⟨rfl, rfl, rfl, rfl⟩
  · intro username password e _
    rw [Register_client]
    exact ⟨rfl, rfl, rfl⟩
  · intro roomName e h
    rw [StartCall_client_of_error w c roomName e h]
    exact ⟨rfl, rfl, rfl⟩
  · intro sessionID e h
    rw [JoinCall_client_of_error w c sessionID e h]
    exact ⟨rfl, rfl, rfl⟩
  · intro e h
    rw [EndCall_client_of_error w c e h]
    exact ⟨rfl, rfl, rfl, rfl⟩
  · intro e _
    rw [GetAvailableCalls_client]
    exact ⟨rfl, rfl, rfl⟩

theorem failed_call_keeps_client_state_witness :
    ((sampleClient.Login (sampleEnvWith (RoundTrip.response 401 "denied")) "bob" "bad").client.token
        = "tok" ∧
      (sampleClient.Login (sampleEnvWith (RoundTrip.response 401 "denied")) "bob"
        "bad").client.IsLoggedIn = true) ∧
    (sampleClient.EndCall (sampleEnvWith (RoundTrip.response 404 "gone"))).client.currentSessionID
      = "s1" ∧
    (sampleClient.StartCall parseFailEnv "Backend").client.currentSessionID = "s1" :=
  ⟨⟨((failed_call_keeps_client_state (sampleEnvWith (RoundTrip.response 401 "denied"))
        sampleClient).1 "bob" "bad" (NewAuthError "Identifiants incorrects") rfl).1,
    ((failed_call_keeps_client_state (sampleEnvWith (RoundTrip.response 401 "denied"))
        sampleClient).1 "bob" "bad" (NewAuthError "Identifiants incorrects") rfl).2.2.2⟩,
   ((failed_call_keeps_client_state (sampleEnvWith (RoundTrip.response 404 "gone"))
      sampleClient).2.2.2.2.1 (NewSessionNotFoundError "Ressource introuvable") rfl).2.2.1,
   ((failed_call_keeps_client_state parseFailEnv sampleClient).2.2.1 "Backend"
      (NewGenericError "Erreur de parsing : unexpected end of JSON input") rfl).2.2⟩

/-- C12: EndCall with an empty currentSessionID returns the ErrorGeneric error "Aucun
appel en cours", hands no request to the transport and changes nothing. EndCall whose
DELETE request (sent only with a non-empty currentSessionID) is answered with a status
below 400 returns nil, empties currentSessionID and leaves token and currentUsername
unchanged; an EndCall made right after it, against any server, fails with "Aucun appel
en cours" and sends nothing. -/
theorem EndCall_ends_the_call_once (w : Env) (c : Client) :
    (c.currentSessionID = "" →
      (∃ e, (c.EndCall w).result = some e ∧ e.Typ = ErrorGeneric ∧
        e.Error = "Aucun appel en cours") ∧
      (c.EndCall w).effects = [] ∧
      (c.EndCall w).client = c) ∧
    (∀ req status respBody,
      req ∈ httpRequests (c.EndCall w).effects →
      w.roundTrip req = RoundTrip.response status respBody →
      status < 400 →
      c.currentSessionID ≠ "" ∧
      (c.EndCall w).result = none ∧
      (c.EndCall w).client.currentSessionID = "" ∧
      (c.EndCall w).client.token = c.token ∧
      (c.EndCall w).client.currentUsername = c.currentUsername ∧
      ∀ w2 : Env,
        (∃ e, ((c.EndCall w).client.EndCall w2).result = some e ∧ e.Typ = ErrorGeneric ∧
          e.Error = "Aucun appel en cours") ∧
        httpRequests ((c.EndCall w).client.EndCall w2).effects = []) := by
  refine ⟨?_, ?_⟩
  · intro hsid
    rw [EndCall_of_empty w c hsid]
    exact ⟨⟨_, rfl, rfl, rfl⟩, rfl, rfl⟩
  · intro req status respBody hsent hresp hstatus
    have hsid : c.currentSessionID ≠ "" := by
      intro h
      rw [EndCall_http_of_empty w c h] at hsent
      exact absurd hsent (List.not_mem_nil _)
    rw [EndCall_http w c hsid] at hsent
    have hok := request_ok_of_sent w c "DELETE" ("/api/session/" ++ c.currentSessionID) none
      true req status respBody hsent hresp hstatus
    obtain ⟨hres, hcl⟩ := EndCall_of_request_ok w c respBody hsid hok
    refine ⟨hsid, hres, ?_, ?_, ?_, ?_⟩
    · rw [hcl]
    · rw [hcl]
    · rw [hcl]
    · intro w2
      rw [hcl, EndCall_of_empty w2 { c with currentSessionID := "" } rfl]
      exact ⟨⟨_, rfl, rfl, rfl⟩, rfl⟩

theorem EndCall_ends_the_call_once_witness :
    (sampleClient.EndCall sampleEnv).result = none ∧
    (sampleClient.EndCall sampleEnv).client.currentSessionID = "" ∧
    (sampleClient.EndCall sampleEnv).client.token = "tok" ∧
    (∃ e, ((sampleClient.EndCall sampleEnv).client.EndCall sampleEnv).result = some e ∧
      e.Typ = ErrorGeneric ∧ e.Error = "Aucun appel en cours") ∧
    ((NewClient none).EndCall sampleEnv).effects = [] :=
  ⟨((EndCall_ends_the_call_once sampleEnv sampleClient).2
      (builtRequest sampleClient "DELETE" "/api/session/s1" none true) 200 "{}"
      (by decide) rfl (by decide)).2.1,
   ((EndCall_ends_the_call_once sampleEnv sampleClient).2
      (builtRequest sampleClient "DELETE" "/api/session/s1" none true) 200 "{}"
      (by decide) rfl (by decide)).2.2.1,
   ((EndCall_ends_the_call_once sampleEnv sampleClient).2
      (builtRequest sampleClient "DELETE" "/api/session/s1" none true) 200 "{}"
      (by decide) rfl (by decide)).2.2.2.1,
   (((EndCall_ends_the_call_once sampleEnv sampleClient).2
      (builtRequest sampleClient "DELETE" "/api/session/s1" none true) 200 "{}"
      (by decide) rfl (by decide)).2.2.2.2.2 sampleEnv).1,
   ((EndCall_ends_the_call_once sampleEnv (NewClient none)).1 rfl).2.1⟩

/-- C13: when the request of GetICEServers is answered with a status below 400, the
fallback is not used: if the body does not parse as a list of ICE servers the call
returns no list and the ErrorGeneric error "Erreur de parsing : " followed by the
decoder's error; if it parses, the call returns exactly the parsed list, empty or not,
with a nil error. The client state is unchanged in both cases. -/
theorem GetICEServers_parses_successful_response (w : Env) (c : Client) (req : Request)
    (status : Int) (respBody : String)
    (hsent : req ∈ httpRequests (c.GetICEServers w).effects)
    (hresp : w.roundTrip req = RoundTrip.response status respBody)
    (hstatus : status < 400) :
    (∀ err, w.unmarshalICEServers respBody = Except.error err →
      ∃ e, (c.GetICEServers w).result = Except.error e ∧ e.Typ = ErrorGeneric ∧
        e.Error = "Erreur de parsing : " ++ err) ∧
    (∀ iceServers, w.unmarshalICEServers respBody = Except.ok iceServers →
      (c.GetICEServers w).result = Except.ok iceServers) ∧
    (c.GetICEServers w).client = c := by
  rw [GetICEServers_http] at hsent
  have hok := request_ok_of_sent w c "GET" "/api/webrtc/ice" none true req status respBody
    hsent hresp hstatus
  obtain ⟨hres, hcl⟩ := GetICEServers_of_request_ok w c respBody hok
  refine ⟨?_, ?_, hcl⟩
  · intro err hu
    rw [hres, hu]
    exact ⟨_, rfl, rfl, rfl⟩
  · intro iceServers hu
    rw [hres, hu]

theorem GetICEServers_parses_successful_response_witness :
    (∃ e, (sampleClient.GetICEServers parseFailEnv).result = Except.error e ∧
      e.Typ = ErrorGeneric ∧
      e.Error = "Erreur de parsing : unexpected end of JSON input") ∧
    (sampleClient.GetICEServers sampleEnv).result = Except.ok [] ∧
    (sampleClient.GetICEServers turnEnv).result =
      Except.ok [{ URLs := ["turn:turn.example.org:3478"], Username := some "u",
                   Credential := some "p" }] :=
  ⟨(GetICEServers_parses_successful_response parseFailEnv sampleClient
      (builtRequest sampleClient "GET" "/api/webrtc/ice" none true) 200 "<html>"
      (by decide) rfl (by decide)).1 "unexpected end of JSON input" rfl,
   (GetICEServers_parses_successful_response sampleEnv sampleClient
      (builtRequest sampleClient "GET" "/api/webrtc/ice" none true) 200 "{}"
      (by decide) rfl (by decide)).2.1 [] rfl,
   (GetICEServers_parses_successful_response turnEnv sampleClient
      (builtRequest sampleClient "GET" "/api/webrtc/ice" none true) 200 "{}"
      (by decide) rfl (by decide)).2.1 _ rfl⟩

end SmaRTC
